import Mathlib

/-!
Shallow embedding of the RCM (revenue cycle management) system's claims
lifecycle and remittance reconciliation engine, translated from the
JavaScript sources:

  * src/services/era-processor.js  (remittance parser + ERA processing)
  * src/routes/denials.js          (payment posting routes, claim totals)
  * src/routes/claims.js           (claim create/update/submit/delete)

JavaScript numbers that may be NaN are modelled as `Option Rat` (`none`
is NaN); JavaScript `undefined` string values are `Option String`
(`none` is undefined).  The storage collaborator (`src/lib/database`,
not part of the snapshot) is modelled from the spec as in-memory entity
tables with create / findById / findOne / update and atomic
transactions.  Timestamps are modelled as day counts (`Nat`).
-/

namespace RCM

/-- A JavaScript number that may be NaN: `none` is NaN. -/
abbrev JsNum := Option Rat

/-- Auxiliary for `jsSplit`: splits a character list on a separator
character, accumulating the current field (reversed). -/
def jsSplitAux (sep : Char) : List Char → List Char → List (List Char)
  | [], acc => [acc.reverse]
  | c :: cs, acc =>
    if c = sep then acc.reverse :: jsSplitAux sep cs []
    else jsSplitAux sep cs (c :: acc)

/-- Embedding of the JavaScript `String.prototype.split` with a
one-character separator (used by the parser as `line.split("*")` and
`fileContent.split("\n")`).  Always returns at least one element. -/
def jsSplit (s : String) (sep : Char) : List String :=
  (jsSplitAux sep s.data []).map (fun cs => String.mk cs)

/-- Numeric value of a digit list, most significant first. -/
def digitsVal (cs : List Char) : Nat :=
  cs.foldl (fun a c => 10 * a + (c.toNat - 48)) 0

/-- Embedding of `Number.parseFloat` applied to a field that may be
`undefined`: parses an optional sign, an integer part and an optional
fractional part from the front of the string; no digits at all (or an
undefined field) gives NaN, modelled as `none`. -/
def jsParseFloat (s : Option String) : JsNum :=
  match s with
  | none => none
  | some str =>
    let cs := str.data
    let signed : Rat × List Char :=
      match cs with
      | '-' :: rest => (-1, rest)
      | '+' :: rest => (1, rest)
      | _ => (1, cs)
    let intPart := signed.2.takeWhile Char.isDigit
    let rest := signed.2.dropWhile Char.isDigit
    let fracPart :=
      match rest with
      | '.' :: r => r.takeWhile Char.isDigit
      | _ => []
    if intPart.isEmpty && fracPart.isEmpty then none
    else
      some (signed.1 *
        ((digitsVal intPart : Rat) + (digitsVal fracPart : Rat) / (10 : Rat) ^ fracPart.length))

/-- Calendar date as assembled by `parseX12Date` from an 8-character
`YYYYMMDD` token (the JavaScript source builds a `Date` from the three
substrings; we keep the substrings). -/
structure X12Date where
  year : String
  month : String
  day : String
deriving Repr, DecidableEq

/-- Embedding of `parseX12Date`: `null` unless the (defined) token has
exactly 8 characters; otherwise the year/month/day substrings. -/
def parseX12Date (s : Option String) : Option X12Date :=
  match s with
  | none => none
  | some str =>
    if str.length = 8 then
      some ⟨String.mk (str.data.take 4),
            String.mk ((str.data.drop 4).take 2),
            String.mk ((str.data.drop 6).take 2)⟩
    else none

/-- Embedding of `getClaimStatusDescription`: the static payer status
code → description table, defaulting to "Unknown Status". -/
def getClaimStatusDescription (statusCode : Option String) : String :=
  if statusCode = some "1" then "Processed as Primary"
  else if statusCode = some "2" then "Processed as Secondary"
  else if statusCode = some "3" then "Processed as Tertiary"
  else if statusCode = some "4" then "Denied"
  else if statusCode = some "19" then "Processed as Primary, Forwarded to Additional Payer(s)"
  else if statusCode = some "20" then "Processed as Secondary, Forwarded to Additional Payer(s)"
  else if statusCode = some "21" then "Processed as Tertiary, Forwarded to Additional Payer(s)"
  else if statusCode = some "22" then "Reversal of Previous Payment"
  else if statusCode = some "23" then "Not Our Claim, Forwarded to Additional Payer(s)"
  else if statusCode = some "25" then "Predetermination Pricing Only - No Payment"
  else "Unknown Status"

/-- One parsed claim-detail record (the parser's claim accumulator). -/
structure ClaimDetail where
  claim_number : Option String
  claim_status_code : Option String
  total_charge_amount : JsNum
  total_paid_amount : JsNum
  patient_responsibility : JsNum
  claim_status_description : String
  patient_name : Option String := none
  service_date_from : Option X12Date := none
  service_date_to : Option X12Date := none
deriving Repr, DecidableEq

/-- Field `i` of a segment, `none` when out of range (JS `undefined`). -/
def segField (segs : List String) (i : Nat) : Option String := segs.get? i

/-- String interpolation of a possibly-undefined field (JS template
literals print `undefined` for undefined values). -/
def jsStr (o : Option String) : String := o.getD "undefined"

/-- Accumulator seeded from a `CLP` segment's fields 1-5. -/
def startClaim (segs : List String) : ClaimDetail :=
  { claim_number := segField segs 1
    claim_status_code := segField segs 2
    total_charge_amount := jsParseFloat (segField segs 3)
    total_paid_amount := jsParseFloat (segField segs 4)
    patient_responsibility := jsParseFloat (segField segs 5)
    claim_status_description := getClaimStatusDescription (segField segs 2) }

/-- Effect of an `NM1` segment on the open accumulator: when the
qualifier (field 1) is `QC`, sets `patient_name` to field 4 followed by
field 3, separated by a space (the source interpolates
`segments[4] + " " + segments[3]`). -/
def nm1Step (segs : List String) (c : ClaimDetail) : ClaimDetail :=
  if segField segs 1 = some "QC" then
    { c with patient_name := some (jsStr (segField segs 4) ++ " " ++ jsStr (segField segs 3)) }
  else c

/-- Effect of a `DTM` segment on the open accumulator: qualifier `232`
sets `service_date_from`, qualifier `233` sets `service_date_to`. -/
def dtmStep (segs : List String) (c : ClaimDetail) : ClaimDetail :=
  let c1 :=
    if segField segs 1 = some "232" then
      { c with service_date_from := parseX12Date (segField segs 2) }
    else c
  if segField segs 1 = some "233" then
    { c1 with service_date_to := parseX12Date (segField segs 2) }
  else c1

/-- Parser state while scanning lines (`eraData` plus the single
mutable current-claim accumulator). -/
structure PState where
  era_number : Option String
  payer_name : Option String
  check_date : Option X12Date
  check_amount : JsNum
  claims : List ClaimDetail
  currentClaim : Option ClaimDetail
deriving Repr, DecidableEq

/-- Initial parser state (`eraData` literal in the source). -/
def initState : PState :=
  { era_number := some ""
    payer_name := some ""
    check_date := none
    check_amount := some 0
    claims := []
    currentClaim := none }

/-- Segment tag of a line: first `*`-delimited field. -/
def lineTag (line : String) : String := (jsSplit line '*').headD ""

/-- Embedding of the `switch` over one line of the remittance file. -/
def processLine (st : PState) (line : String) : PState :=
  let segs := jsSplit line '*'
  let tag := segs.headD ""
  if tag = "BPR" then
    { st with check_amount := jsParseFloat (segField segs 2)
              check_date := parseX12Date (segField segs 16) }
  else if tag = "TRN" then
    { st with era_number := segField segs 2 }
  else if tag = "N1" then
    if segField segs 1 = some "PR" then { st with payer_name := segField segs 2 } else st
  else if tag = "CLP" then
    { st with claims := st.claims ++ st.currentClaim.toList
              currentClaim := some (startClaim segs) }
  else if tag = "NM1" then
    { st with currentClaim := st.currentClaim.map (nm1Step segs) }
  else if tag = "DTM" then
    { st with currentClaim := st.currentClaim.map (dtmStep segs) }
  else st

/-- Parsed remittance: header plus the ordered claim-detail list. -/
structure ERAData where
  era_number : Option String
  payer_name : Option String
  check_date : Option X12Date
  check_amount : JsNum
  claims : List ClaimDetail
deriving Repr, DecidableEq

/-- Embedding of `parseERAFile` restricted to an already-split line
list: fold the per-line switch, then flush the pending accumulator. -/
def parseERALines (lines : List String) : ERAData :=
  let st := lines.foldl processLine initState
  { era_number := st.era_number
    payer_name := st.payer_name
    check_date := st.check_date
    check_amount := st.check_amount
    claims := st.claims ++ st.currentClaim.toList }

/-- Embedding of `parseERAFile`: split the content on newlines and
process the lines in order. -/
def parseERAFile (content : String) : ERAData :=
  parseERALines (jsSplit content '\n')

/-- Effect of one non-`CLP` line on an open claim accumulator (only
`NM1` and `DTM` segments touch it). -/
def stepClaim (c : ClaimDetail) (line : String) : ClaimDetail :=
  let segs := jsSplit line '*'
  let tag := segs.headD ""
  if tag = "NM1" then nm1Step segs c
  else if tag = "DTM" then dtmStep segs c
  else c

/-- Decomposition of the input into claim sections: one entry per `CLP`
line, paired with the lines strictly between it and the next `CLP` line
(or the end of the input), in input order. -/
def sections : List String → List (String × List String)
  | [] => []
  | l :: ls =>
    if lineTag l = "CLP" then
      (l, ls.takeWhile (fun x => !(decide (lineTag x = "CLP")))) :: sections ls
    else sections ls

/-- The claim-detail record a section denotes: the accumulator seeded
from the `CLP` line, folded through the section's lines. -/
def sectionClaim (s : String × List String) : ClaimDetail :=
  s.2.foldl stepClaim (startClaim (jsSplit s.1 '*'))

/-- Claim-detail records still to be emitted, given the open
accumulator and the remaining lines. -/
def collectClaims : Option ClaimDetail → List String → List ClaimDetail
  | cur, [] => cur.toList
  | cur, l :: ls =>
    if lineTag l = "CLP" then
      cur.toList ++ collectClaims (some (startClaim (jsSplit l '*'))) ls
    else collectClaims (cur.map (fun c => stepClaim c l)) ls

/-- Value of `f` at the last line where it is defined. -/
def lastSome (f : String → Option α) : List String → Option α
  | [] => none
  | l :: ls =>
    match lastSome f ls with
    | some v => some v
    | none => f l

/-- The patient name an `NM1*QC` line carries, if this line is one. -/
def nm1Value (line : String) : Option String :=
  let segs := jsSplit line '*'
  if segs.headD "" = "NM1" ∧ segField segs 1 = some "QC" then
    some (jsStr (segField segs 4) ++ " " ++ jsStr (segField segs 3))
  else none

/-- The from-date a `DTM*232` line carries, if this line is one. -/
def dtm232Value (line : String) : Option (Option X12Date) :=
  let segs := jsSplit line '*'
  if segs.headD "" = "DTM" ∧ segField segs 1 = some "232" then
    some (parseX12Date (segField segs 2))
  else none

/-- The to-date a `DTM*233` line carries, if this line is one. -/
def dtm233Value (line : String) : Option (Option X12Date) :=
  let segs := jsSplit line '*'
  if segs.headD "" = "DTM" ∧ segField segs 1 = some "233" then
    some (parseX12Date (segField segs 2))
  else none

/-- Embedding of `mapERAStatusToClaimStatus`: static payer status code
→ claim status table, defaulting to "SUBMITTED". -/
def mapERAStatusToClaimStatus (eraStatusCode : Option String) : String :=
  if eraStatusCode = some "1" then "PAID"
  else if eraStatusCode = some "2" then "PAID"
  else if eraStatusCode = some "3" then "PAID"
  else if eraStatusCode = some "4" then "DENIED"
  else if eraStatusCode = some "19" then "PAID"
  else if eraStatusCode = some "20" then "PAID"
  else if eraStatusCode = some "21" then "PAID"
  else if eraStatusCode = some "22" then "PAID"
  else if eraStatusCode = some "23" then "REJECTED"
  else if eraStatusCode = some "25" then "ACCEPTED"
  else "SUBMITTED"

/-- Embedding of `isClaimDenied`: the denial status codes. -/
def isClaimDenied (statusCode : Option String) : Bool :=
  statusCode = some "4" ∨ statusCode = some "23"

/-- Static technical denial reason codes. -/
def technicalCodes : List String := ["16", "18", "26", "27"]

/-- Static clinical denial reason codes. -/
def clinicalCodes : List String := ["11", "12", "13", "14", "15"]

/-- Static authorization denial reason codes. -/
def authorizationCodes : List String := ["52", "53", "54", "55", "56"]

/-- Static eligibility denial reason codes. -/
def eligibilityCodes : List String := ["27", "29", "30", "31"]

/-- Embedding of `categorizeDenial`: the four static code lists checked
in source order, defaulting to "OTHER". -/
def categorizeDenial (reasonCode : Option String) : String :=
  match reasonCode with
  | none => "OTHER"
  | some r =>
    if r ∈ technicalCodes then "TECHNICAL"
    else if r ∈ clinicalCodes then "CLINICAL"
    else if r ∈ authorizationCodes then "AUTHORIZATION"
    else if r ∈ eligibilityCodes then "ELIGIBILITY"
    else "OTHER"

/-- Static urgent-priority denial reason codes. -/
def urgentCodes : List String := ["16", "18"]

/-- Static high-priority denial reason codes. -/
def highPriorityCodes : List String := ["11", "12", "27", "29"]

/-- Embedding of `getDenialPriority`: urgent codes first, then high,
defaulting to "MEDIUM". -/
def getDenialPriority (reasonCode : Option String) : String :=
  match reasonCode with
  | none => "MEDIUM"
  | some r =>
    if r ∈ urgentCodes then "URGENT"
    else if r ∈ highPriorityCodes then "HIGH"
    else "MEDIUM"

/-- Embedding of `calculateAppealDeadline`: today plus 90 days
(timestamps as day counts). -/
def calculateAppealDeadline (now : Nat) : Nat := now + 90

/-- Embedding of `calculateFollowUpDate`: today plus 14 days. -/
def calculateFollowUpDate (now : Nat) : Nat := now + 14

/-- Stored claim row (table `claims`).  `total_charges` is numeric by
construction (it is always written as a computed sum); `total_paid` and
`patient_responsibility` may be overwritten from parsed ERA amounts and
so are `JsNum`. -/
structure Claim where
  id : Nat
  claim_number : String
  patient_id : Nat
  primary_insurance_id : Nat
  claim_status : String
  total_charges : Rat
  total_paid : JsNum
  patient_responsibility : JsNum
  primary_diagnosis_code : Option String
  place_of_service : Option String
  billing_provider_npi : Option String
  rendering_provider_npi : Option String
  submission_date : Option Nat := none
  clearinghouse_id : Option String := none
  clearinghouse_status : Option String := none
  updated_by : Option Nat := none
deriving Repr, DecidableEq

/-- Stored claim line item row (table `claim_line_items`). -/
structure ClaimLineItem where
  id : Nat
  claim_id : Nat
  line_number : Rat
  procedure_code : Option String
  service_date : Option String
  units : Rat
  charge_amount : Rat
deriving Repr, DecidableEq

/-- Stored payment posting row (table `payment_postings`).
`posted_by` is the nullable human poster id: `none` means the system
posted it (ERA auto-posting). -/
structure PaymentPosting where
  id : Nat
  claim_id : Nat
  era_id : Option Nat
  payment_type : String
  payment_method : String
  payment_amount : Rat
  posted_by : Option Nat
deriving Repr, DecidableEq

/-- Stored denial row (table `denials`). -/
structure Denial where
  id : Nat
  claim_id : Nat
  denial_date : Nat
  denial_reason_code : Option String
  denial_reason_description : String
  denial_category : String
  priority : String
  resolution_status : String
  appeal_deadline : Nat
  follow_up_date : Nat
deriving Repr, DecidableEq

/-- Stored remittance row (table `eras`). -/
structure EraRec where
  id : Nat
  era_number : Option String
  payer_name : Option String
  check_date : Option X12Date
  check_amount : JsNum
  era_file_path : String
  processing_status : String
deriving Repr, DecidableEq

/-- Stored remittance claim-detail row (table `era_claim_details`). -/
structure EraClaimDetailRec where
  id : Nat
  era_id : Nat
  claim_id : Option Nat
  claim_number : Option String
  patient_name : Option String
  service_date_from : Option X12Date
  service_date_to : Option X12Date
  total_charge_amount : JsNum
  total_paid_amount : JsNum
  patient_responsibility : JsNum
  claim_status_code : Option String
  claim_status_description : String
deriving Repr, DecidableEq

/-- Stored patient row (the fields submission validation joins in). -/
structure Patient where
  id : Nat
  first_name : Option String
  last_name : Option String
  date_of_birth : Option String
  gender : Option String
deriving Repr, DecidableEq

/-- Stored patient insurance row. -/
structure PatientInsurance where
  id : Nat
  insurance_provider_id : Nat
  policy_number_encrypted : Option String
deriving Repr, DecidableEq

/-- Stored insurance provider row. -/
structure InsuranceProvider where
  id : Nat
  payer_id : Option String
deriving Repr, DecidableEq

/-- Modelled from the spec: the Storage collaborator (`src/lib/database`
is not part of the repository snapshot).  In-memory entity tables with
create / findById / findOne / update inside atomic transactions; the
`system_settings` row `era_auto_posting_enabled` is modelled as the
boolean `auto_posting_enabled`; `next_id` is the auto-increment
counter shared across tables. -/
structure DB where
  claims : List Claim
  line_items : List ClaimLineItem
  payment_postings : List PaymentPosting
  denials : List Denial
  eras : List EraRec
  era_claim_details : List EraClaimDetailRec
  patients : List Patient
  patient_insurance : List PatientInsurance
  insurance_providers : List InsuranceProvider
  auto_posting_enabled : Bool
  next_id : Nat
deriving Repr, DecidableEq

/-- JavaScript truthiness of a nullable numeric id (`0` and `null` are
falsy). -/
def jsTruthyId (o : Option Nat) : Bool :=
  match o with
  | none => false
  | some n => n != 0

/-- JavaScript truthiness of a nullable string (`""` and `null`/
`undefined` are falsy). -/
def jsTruthyStr (o : Option String) : Bool :=
  match o with
  | none => false
  | some s => s != ""

/-- Sum of INSURANCE and PATIENT posting amounts for one claim (the
`total_paid` aggregate of `updateClaimTotals`; SQL SUM over the empty
set is NULL, coalesced to 0 by the source). -/
def paidSum (db : DB) (claimId : Nat) : Rat :=
  ((db.payment_postings.filter (fun p =>
    p.claim_id == claimId &&
      (p.payment_type == "INSURANCE" || p.payment_type == "PATIENT"))).map
        (fun p => p.payment_amount)).sum

/-- Sum of ADJUSTMENT posting amounts for one claim. -/
def adjSum (db : DB) (claimId : Nat) : Rat :=
  ((db.payment_postings.filter (fun p =>
    p.claim_id == claimId && p.payment_type == "ADJUSTMENT")).map
      (fun p => p.payment_amount)).sum

/-- Embedding of `updateClaimTotals` (src/routes/denials.js): recompute
`total_paid` and `patient_responsibility = max(0, total_charges −
total_paid − total_adjustments)` for one claim from its postings, and
persist them on the claim row. -/
def updateClaimTotals (db : DB) (claimId : Nat) : DB :=
  let totalPaid := paidSum db claimId
  let totalAdjustments := adjSum db claimId
  match db.claims.find? (fun c => c.id == claimId) with
  | none => db
  | some claim =>
    let patientResponsibility := max 0 (claim.total_charges - totalPaid - totalAdjustments)
    { db with claims := db.claims.map (fun c =>
        if c.id == claimId then
          { c with total_paid := some totalPaid,
                   patient_responsibility := some patientResponsibility }
        else c) }

/-- Request body of a payment posting (the `paymentSchema` fields the
aggregates depend on). -/
structure PaymentInput where
  claim_id : Nat
  payment_type : String
  payment_method : String
  payment_amount : Rat
deriving Repr, DecidableEq

/-- Embedding of the Joi `paymentSchema` checks on type, method and
amount (`payment_amount` has `min(0)`: zero is allowed). -/
def validPayment (v : PaymentInput) : Bool :=
  (v.payment_type == "INSURANCE" || v.payment_type == "PATIENT" ||
    v.payment_type == "ADJUSTMENT" || v.payment_type == "REFUND") &&
  (v.payment_method == "CHECK" || v.payment_method == "EFT" ||
    v.payment_method == "CREDIT_CARD" || v.payment_method == "CASH" ||
    v.payment_method == "ERA") &&
  decide (0 ≤ v.payment_amount)

/-- Error taxonomy of the HTTP routes. -/
inductive ApiErr where
  | validation (msg : String)
  | notFound (msg : String)
  | stateConflict (msg : String)
deriving Repr, DecidableEq

/-- Embedding of the manual payment posting route
(`router.post("/")` in src/routes/denials.js): validate, check the
claim exists, insert the posting with the acting user as poster, then
recompute the claim's totals in the same transaction. -/
def postPayment (db : DB) (userId : Nat) (v : PaymentInput) :
    Except ApiErr (DB × Nat) :=
  if ¬ validPayment v then .error (.validation "invalid payment") else
  match db.claims.find? (fun c => c.id == v.claim_id) with
  | none => .error (.notFound "Claim not found")
  | some _ =>
    let pid := db.next_id
    let p : PaymentPosting :=
      { id := pid, claim_id := v.claim_id, era_id := none,
        payment_type := v.payment_type, payment_method := v.payment_method,
        payment_amount := v.payment_amount, posted_by := some userId }
    let db1 := { db with payment_postings := db.payment_postings ++ [p],
                         next_id := pid + 1 }
    .ok (updateClaimTotals db1 v.claim_id, pid)

/-- Embedding of the payment update route (`router.put("/:id")`):
reject missing postings, reject ERA postings without a truthy human
poster, validate the body, overwrite the schema fields, then recompute
the totals of the claim referenced by the request body. -/
def updatePayment (db : DB) (paymentId : Nat) (v : PaymentInput) :
    Except ApiErr DB :=
  match db.payment_postings.find? (fun p => p.id == paymentId) with
  | none => .error (.notFound "Payment not found")
  | some existing =>
    if existing.payment_method == "ERA" && !(jsTruthyId existing.posted_by) then
      .error (.stateConflict "Cannot edit auto-posted ERA payments")
    else if ¬ validPayment v then .error (.validation "invalid payment")
    else
      let db1 := { db with payment_postings := db.payment_postings.map (fun p =>
        if p.id == paymentId then
          { p with claim_id := v.claim_id, payment_type := v.payment_type,
                   payment_method := v.payment_method,
                   payment_amount := v.payment_amount }
        else p) }
      .ok (updateClaimTotals db1 v.claim_id)

/-- Embedding of the payment delete route (`router.delete("/:id")`):
reject missing postings and system-posted ERA postings, delete the row,
then recompute the totals of the deleted posting's claim. -/
def deletePayment (db : DB) (paymentId : Nat) : Except ApiErr DB :=
  match db.payment_postings.find? (fun p => p.id == paymentId) with
  | none => .error (.notFound "Payment not found")
  | some payment =>
    if payment.payment_method == "ERA" && !(jsTruthyId payment.posted_by) then
      .error (.stateConflict "Cannot delete auto-posted ERA payments")
    else
      let db1 := { db with payment_postings :=
        db.payment_postings.filter (fun p => !(p.id == paymentId)) }
      .ok (updateClaimTotals db1 payment.claim_id)

/-- Outcome of one item of the bulk payment posting route. -/
structure BulkItemResult where
  claim_id : Nat
  payment_id : Option Nat
  succeeded : Bool
deriving Repr, DecidableEq

/-- Embedding of the bulk payment posting route (`router.post("/bulk")`):
per-item isolation — each item is validated, checked and posted exactly
like a single manual posting; a failed item is recorded and does not
stop the rest. -/
def bulkPostPayments (db : DB) (userId : Nat) :
    List PaymentInput → DB × List BulkItemResult
  | [] => (db, [])
  | v :: vs =>
    match postPayment db userId v with
    | .ok (db1, pid) =>
      let r := bulkPostPayments db1 userId vs
      (r.1, ⟨v.claim_id, some pid, true⟩ :: r.2)
    | .error _ =>
      let r := bulkPostPayments db userId vs
      (r.1, ⟨v.claim_id, none, false⟩ :: r.2)

/-- The payment reconciliation invariant at one claim: the stored row
(as read back by id) carries `total_paid` equal to the INSURANCE+PATIENT
posting sum and `patient_responsibility = max(0, total_charges −
total_paid − total_adjustments)`. -/
def invariantAt (db : DB) (claimId : Nat) : Prop :=
  ∀ c, db.claims.find? (fun c => c.id == claimId) = some c →
    c.total_paid = some (paidSum db claimId) ∧
    c.patient_responsibility =
      some (max 0 (c.total_charges - paidSum db claimId - adjSum db claimId))

/-- Is a JS number (possibly NaN) strictly greater than a bound?  NaN
compares false. -/
def jsGt (x : JsNum) (bound : Rat) : Bool :=
  match x with
  | none => false
  | some v => decide (bound < v)

/-- Embedding of `createDenialRecord`: a new OPEN denial derived from
the claim detail's status code, with the static 90-day appeal deadline
and 14-day follow-up. -/
def createDenialRecord (db : DB) (claimId : Nat) (d : ClaimDetail) (now : Nat) : DB :=
  let denial : Denial :=
    { id := db.next_id
      claim_id := claimId
      denial_date := now
      denial_reason_code := d.claim_status_code
      denial_reason_description := d.claim_status_description
      denial_category := categorizeDenial d.claim_status_code
      priority := getDenialPriority d.claim_status_code
      resolution_status := "OPEN"
      appeal_deadline := calculateAppealDeadline now
      follow_up_date := calculateFollowUpDate now }
  { db with denials := db.denials ++ [denial], next_id := db.next_id + 1 }

/-- Embedding of `autoPostPayment`: insert one INSURANCE/ERA posting
for the detail's paid amount with no human poster.  The caller only
invokes this when the paid amount is a number greater than zero, so
`getD 0` never applies. -/
def autoPostPayment (db : DB) (claimId : Nat) (eraId : Nat) (d : ClaimDetail) : DB :=
  let p : PaymentPosting :=
    { id := db.next_id
      claim_id := claimId
      era_id := some eraId
      payment_type := "INSURANCE"
      payment_method := "ERA"
      payment_amount := d.total_paid_amount.getD 0
      posted_by := none }
  { db with payment_postings := db.payment_postings ++ [p], next_id := db.next_id + 1 }

/-- Modelled from the spec: storage operations run in transactions and
may fail (PERSISTENCE_FAILURE); the oracle says whether the
`era_claim_details` insert for a given claim detail throws. -/
structure FaultEnv where
  detailCreateFails : ClaimDetail → Bool

/-- Embedding of `processERAClaim`: match the stored claim by claim
number, store the detail row, and if a claim matched auto-post (when
the flag is on and the paid amount is positive), write the mapped
status and the detail's paid/responsibility amounts onto the claim, and
create a denial when the code is a denial code.  Returns the mutated
store and the thrown error, if any; earlier writes are not rolled
back. -/
def processERAClaim (env : FaultEnv) (db : DB) (eraId : Nat) (d : ClaimDetail)
    (now : Nat) : DB × Option String :=
  let claim? : Option Claim :=
    match d.claim_number with
    | none => none
    | some n => db.claims.find? (fun c => c.claim_number == n)
  if env.detailCreateFails d then (db, some "era claim detail insert failed")
  else
    let detail : EraClaimDetailRec :=
      { id := db.next_id
        era_id := eraId
        claim_id := claim?.map (fun c => c.id)
        claim_number := d.claim_number
        patient_name := d.patient_name
        service_date_from := d.service_date_from
        service_date_to := d.service_date_to
        total_charge_amount := d.total_charge_amount
        total_paid_amount := d.total_paid_amount
        patient_responsibility := d.patient_responsibility
        claim_status_code := d.claim_status_code
        claim_status_description := d.claim_status_description }
    let db1 := { db with era_claim_details := db.era_claim_details ++ [detail],
                         next_id := db.next_id + 1 }
    match claim? with
    | none => (db1, none)
    | some claim =>
      let db2 :=
        if db.auto_posting_enabled && jsGt d.total_paid_amount 0 then
          autoPostPayment db1 claim.id eraId d
        else db1
      let db3 := { db2 with claims := db2.claims.map (fun c =>
        if c.id == claim.id then
          { c with claim_status := mapERAStatusToClaimStatus d.claim_status_code,
                   total_paid := d.total_paid_amount,
                   patient_responsibility := d.patient_responsibility }
        else c) }
      let db4 :=
        if isClaimDenied d.claim_status_code then createDenialRecord db3 claim.id d now
        else db3
      (db4, none)

/-- The per-claim loop of `processERAFile`: stops at the first claim
detail whose processing throws, keeping all earlier writes. -/
def processClaimsLoop (env : FaultEnv) (eraId : Nat) (now : Nat) :
    DB → List ClaimDetail → DB × Option String
  | db, [] => (db, none)
  | db, d :: ds =>
    match processERAClaim env db eraId d now with
    | (db1, some e) => (db1, some e)
    | (db1, none) => processClaimsLoop env eraId now db1 ds

/-- Result of one remittance ingestion run. -/
inductive ERAResult where
  | success (eraId : Nat)
  | failure (msg : String)
deriving Repr, DecidableEq

/-- Embedding of `processERAFile`: parse the content, store the
remittance row with status PROCESSING, process each claim detail in
order, and mark the row POSTED only when every detail succeeded.  A
thrown error is caught and reported; no compensation is run. -/
def processERAFile (env : FaultEnv) (db : DB) (content : String)
    (filePath : String) (now : Nat) : DB × ERAResult :=
  let eraData := parseERAFile content
  let eraId := db.next_id
  let eraRec : EraRec :=
    { id := eraId
      era_number := eraData.era_number
      payer_name := eraData.payer_name
      check_date := eraData.check_date
      check_amount := eraData.check_amount
      era_file_path := filePath
      processing_status := "PROCESSING" }
  let db1 := { db with eras := db.eras ++ [eraRec], next_id := eraId + 1 }
  let r := processClaimsLoop env eraId now db1 eraData.claims
  match r.2 with
  | some e => (r.1, .failure e)
  | none =>
    ({ r.1 with eras := r.1.eras.map (fun er =>
        if er.id == eraId then { er with processing_status := "POSTED" } else er) },
      .success eraId)

/-- Request body of one claim line item (`claimSchema.line_items`
entries; `none` is an absent field).  Joi `date()` validity beyond
presence is abstracted: a present service date is taken as a valid
date. -/
structure LineItemInput where
  line_number : Option Rat
  procedure_code : Option String
  service_date : Option String
  units : Option Rat
  charge_amount : Option Rat
deriving Repr, DecidableEq

/-- Request body of a claim create/update (`claimSchema`). -/
structure ClaimInput where
  patient_id : Option Nat
  primary_insurance_id : Option Nat
  claim_type : Option String
  service_date_from : Option String
  service_date_to : Option String
  primary_diagnosis_code : Option String
  place_of_service : Option String
  billing_provider_npi : Option String
  rendering_provider_npi : Option String
  line_items : List LineItemInput
deriving Repr, DecidableEq

/-- Embedding of the Joi checks on one line item: `line_number`,
`procedure_code` (required, non-empty), `service_date` and
`charge_amount` are required; `charge_amount` has `min(0)` (zero
allowed); `units` defaults to 1 and has `min(1)`. -/
def validLineItem (li : LineItemInput) : Bool :=
  li.line_number.isSome &&
  jsTruthyStr li.procedure_code &&
  li.service_date.isSome &&
  (match li.units with
   | none => true
   | some u => decide (1 ≤ u)) &&
  (match li.charge_amount with
   | none => false
   | some a => decide (0 ≤ a))

/-- Embedding of the Joi `claimSchema` validation: required claim
fields plus at least one valid line item. -/
def validClaimInput (v : ClaimInput) : Bool :=
  v.patient_id.isSome &&
  v.primary_insurance_id.isSome &&
  (v.claim_type == some "PROFESSIONAL" || v.claim_type == some "INSTITUTIONAL" ||
    v.claim_type == some "DENTAL" || v.claim_type == some "VISION") &&
  v.service_date_from.isSome &&
  v.service_date_to.isSome &&
  jsTruthyStr v.primary_diagnosis_code &&
  jsTruthyStr v.place_of_service &&
  jsTruthyStr v.billing_provider_npi &&
  jsTruthyStr v.rendering_provider_npi &&
  decide (1 ≤ v.line_items.length) &&
  v.line_items.all validLineItem

/-- Total charges computed by the create/update routes: the sum of the
submitted line items' charge amounts (the client cannot supply a
total — `claimSchema` has no such field). -/
def computedTotalCharges (v : ClaimInput) : Rat :=
  (v.line_items.map (fun li => li.charge_amount.getD 0)).sum

/-- Line item rows inserted for a claim (Joi fills `units := 1` when
absent). -/
def insertLineItems (claimId : Nat) (firstId : Nat) (items : List LineItemInput) :
    List ClaimLineItem :=
  (items.enum.map (fun x =>
    { id := firstId + x.1
      claim_id := claimId
      line_number := x.2.line_number.getD 0
      procedure_code := x.2.procedure_code
      service_date := x.2.service_date
      units := x.2.units.getD 1
      charge_amount := x.2.charge_amount.getD 0 }))

/-- Embedding of the claim create route (`router.post("/")` in
src/routes/claims.js): validate, compute `total_charges` as the line
sum, insert the claim with status DRAFT and its line items in one
transaction. -/
def createClaim (db : DB) (userId : Nat) (claimNumber : String) (v : ClaimInput) :
    Except ApiErr (DB × Nat) :=
  if ¬ validClaimInput v then .error (.validation "invalid claim") else
  let claimId := db.next_id
  let claim : Claim :=
    { id := claimId
      claim_number := claimNumber
      patient_id := v.patient_id.getD 0
      primary_insurance_id := v.primary_insurance_id.getD 0
      claim_status := "DRAFT"
      total_charges := computedTotalCharges v
      total_paid := some 0
      patient_responsibility := some 0
      primary_diagnosis_code := v.primary_diagnosis_code
      place_of_service := v.place_of_service
      billing_provider_npi := v.billing_provider_npi
      rendering_provider_npi := v.rendering_provider_npi
      updated_by := some userId }
  .ok ({ db with
          claims := db.claims ++ [claim]
          line_items := db.line_items ++
            insertLineItems claimId (claimId + 1) v.line_items
          next_id := claimId + 1 + v.line_items.length },
        claimId)

/-- Embedding of the claim update route (`router.put("/:id")`): only
DRAFT/READY claims are mutable; all line items are replaced and
`total_charges` recomputed in one transaction. -/
def updateClaim (db : DB) (userId : Nat) (claimId : Nat) (v : ClaimInput) :
    Except ApiErr DB :=
  match db.claims.find? (fun c => c.id == claimId) with
  | none => .error (.notFound "Claim not found")
  | some existing =>
    if ¬ (existing.claim_status == "DRAFT" || existing.claim_status == "READY") then
      .error (.stateConflict "Cannot update submitted claim")
    else if ¬ validClaimInput v then .error (.validation "invalid claim")
    else
      .ok { db with
        claims := db.claims.map (fun c =>
          if c.id == claimId then
            { c with patient_id := v.patient_id.getD 0
                     primary_insurance_id := v.primary_insurance_id.getD 0
                     total_charges := computedTotalCharges v
                     primary_diagnosis_code := v.primary_diagnosis_code
                     place_of_service := v.place_of_service
                     billing_provider_npi := v.billing_provider_npi
                     rendering_provider_npi := v.rendering_provider_npi
                     updated_by := some userId }
          else c)
        line_items :=
          (db.line_items.filter (fun li => !(li.claim_id == claimId))) ++
            insertLineItems claimId db.next_id v.line_items
        next_id := db.next_id + v.line_items.length }

/-- Embedding of `validateClaimForSubmission`: the ordered error list
built from the claim joined with its patient and primary insurance
(inner joins: a missing joined row reports "Claim not found") plus the
per-line-item checks (positive charge required here). -/
def validateClaimForSubmission (db : DB) (claimId : Nat) : List String :=
  match db.claims.find? (fun c => c.id == claimId) with
  | none => ["Claim not found"]
  | some claim =>
    match db.patients.find? (fun p => p.id == claim.patient_id) with
    | none => ["Claim not found"]
    | some patient =>
      match db.patient_insurance.find? (fun pi => pi.id == claim.primary_insurance_id) with
      | none => ["Claim not found"]
      | some pi =>
        match db.insurance_providers.find? (fun ip => ip.id == pi.insurance_provider_id) with
        | none => ["Claim not found"]
        | some ip =>
          let fieldErrors :=
            (if ¬ jsTruthyStr claim.billing_provider_npi then
              ["Billing provider NPI is required"] else []) ++
            (if ¬ jsTruthyStr claim.rendering_provider_npi then
              ["Rendering provider NPI is required"] else []) ++
            (if ¬ jsTruthyStr claim.primary_diagnosis_code then
              ["Primary diagnosis code is required"] else []) ++
            (if ¬ jsTruthyStr claim.place_of_service then
              ["Place of service is required"] else []) ++
            (if ¬ (jsTruthyStr patient.first_name && jsTruthyStr patient.last_name) then
              ["Patient name is required"] else []) ++
            (if ¬ jsTruthyStr patient.date_of_birth then
              ["Patient date of birth is required"] else []) ++
            (if ¬ jsTruthyStr patient.gender then
              ["Patient gender is required"] else []) ++
            (if ¬ jsTruthyStr pi.policy_number_encrypted then
              ["Insurance policy number is required"] else []) ++
            (if ¬ jsTruthyStr ip.payer_id then
              ["Insurance payer ID is required"] else [])
          let lineItems := db.line_items.filter (fun li => li.claim_id == claimId)
          let lineErrors :=
            if lineItems.length = 0 then ["At least one line item is required"]
            else lineItems.flatMap (fun li =>
              (if ¬ jsTruthyStr li.procedure_code then
                ["Procedure code is required"] else []) ++
              (if li.charge_amount ≤ 0 then
                ["Valid charge amount is required"] else []) ++
              (if ¬ jsTruthyStr li.service_date then
                ["Service date is required"] else []))
          fieldErrors ++ lineErrors

/-- Response of the external clearinghouse gateway's `submitClaim`. -/
structure GatewayResponse where
  success : Bool
  clearinghouse_id : Option String
  status : Option String
  errMsg : Option String
deriving Repr, DecidableEq

/-- Outcome of the claim submission route. -/
inductive SubmitResult where
  | notFound
  | stateConflict
  | invalidClaim (errors : List String)
  | gatewayFailed (msg : String)
  | submitted (clearinghouseId : Option String)
deriving Repr, DecidableEq

/-- Embedding of the claim submission route (`router.post("/:id/submit")`):
reject missing claims, reject claims not in DRAFT/READY, reject claims
failing submission validation, call the gateway, and only on gateway
success write SUBMITTED plus the submission timestamp and the
clearinghouse tracking id; on gateway failure nothing is written. -/
def submitClaim (db : DB) (claimId : Nat) (userId : Nat) (gw : GatewayResponse)
    (now : Nat) : DB × SubmitResult :=
  match db.claims.find? (fun c => c.id == claimId) with
  | none => (db, .notFound)
  | some claim =>
    if ¬ (claim.claim_status == "DRAFT" || claim.claim_status == "READY") then
      (db, .stateConflict)
    else
      let errors := validateClaimForSubmission db claimId
      if errors.length ≠ 0 then (db, .invalidClaim errors)
      else if gw.success then
        ({ db with claims := db.claims.map (fun c =>
            if c.id == claimId then
              { c with claim_status := "SUBMITTED"
                       submission_date := some now
                       clearinghouse_id := gw.clearinghouse_id
                       clearinghouse_status := gw.status
                       updated_by := some userId }
            else c) },
          .submitted gw.clearinghouse_id)
      else (db, .gatewayFailed (jsStr gw.errMsg))

/-- Embedding of the claim delete route (`router.delete("/:id")`):
only DRAFT claims are deletable; the claim and its line items are
removed in one transaction. -/
def deleteClaim (db : DB) (claimId : Nat) : Except ApiErr DB :=
  match db.claims.find? (fun c => c.id == claimId) with
  | none => .error (.notFound "Claim not found")
  | some claim =>
    if ¬ (claim.claim_status == "DRAFT") then
      .error (.stateConflict "Only draft claims can be deleted")
    else
      .ok { db with
        claims := db.claims.filter (fun c => !(c.id == claimId))
        line_items := db.line_items.filter (fun li => !(li.claim_id == claimId)) }

/-- Fault oracle under which every storage operation succeeds. -/
def noFault : FaultEnv := ⟨fun _ => false⟩

/-- An empty store. -/
def emptyDB : DB :=
  { claims := [], line_items := [], payment_postings := [], denials := [],
    eras := [], era_claim_details := [], patients := [], patient_insurance := [],
    insurance_providers := [], auto_posting_enabled := false, next_id := 1 }

/-- Example patient row. -/
def exPatient : Patient := ⟨1, some "JOHN", some "DOE", some "1980-01-01", some "M"⟩

/-- Example insurance provider row. -/
def exProvider : InsuranceProvider := ⟨3, some "PAYER1"⟩

/-- Example patient insurance row. -/
def exInsurance : PatientInsurance := ⟨2, 3, some "POL123"⟩

/-- Example stored claim with 500 in charges and no postings yet. -/
def exClaim1 : Claim :=
  { id := 1, claim_number := "CLM1", patient_id := 1, primary_insurance_id := 2,
    claim_status := "DRAFT", total_charges := 500, total_paid := some 0,
    patient_responsibility := some 0, primary_diagnosis_code := some "A00",
    place_of_service := some "11", billing_provider_npi := some "B1",
    rendering_provider_npi := some "R1" }

/-- Example stored line item for `exClaim1`. -/
def exLine1 : ClaimLineItem := ⟨5, 1, 1, some "99213", some "20240101", 1, 500⟩

/-- Example store holding `exClaim1`, auto-posting enabled. -/
def exDB : DB :=
  { claims := [exClaim1], line_items := [exLine1], payment_postings := [],
    denials := [], eras := [], era_claim_details := [], patients := [exPatient],
    patient_insurance := [exInsurance], insurance_providers := [exProvider],
    auto_posting_enabled := true, next_id := 10 }

/-- Example store holding `exClaim1`, auto-posting disabled. -/
def exDBoff : DB := { exDB with auto_posting_enabled := false }

/-- Remittance detail paying 300 of 500 with 100 patient
responsibility, payer status code 1. -/
def exDetailPaid : ClaimDetail :=
  { claim_number := some "CLM1", claim_status_code := some "1",
    total_charge_amount := some 500, total_paid_amount := some 300,
    patient_responsibility := some 100,
    claim_status_description := "Processed as Primary" }

/-- Remittance detail with denial code 4 and nothing paid. -/
def exDetailDenied : ClaimDetail :=
  { claim_number := some "CLM1", claim_status_code := some "4",
    total_charge_amount := some 500, total_paid_amount := some 0,
    patient_responsibility := some 0, claim_status_description := "Denied" }

/-- Remittance detail with the unmapped payer status code 99. -/
def exDetailUnknown : ClaimDetail :=
  { claim_number := some "CLM1", claim_status_code := some "99",
    total_charge_amount := some 500, total_paid_amount := some 0,
    patient_responsibility := some 0, claim_status_description := "Unknown Status" }

/-- Claim A of the posting-move scenario: 100 in charges, one CHECK
posting of 40 already reconciled. -/
def moveClaim1 : Claim :=
  { id := 1, claim_number := "A", patient_id := 1, primary_insurance_id := 2,
    claim_status := "SUBMITTED", total_charges := 100, total_paid := some 40,
    patient_responsibility := some 60, primary_diagnosis_code := none,
    place_of_service := none, billing_provider_npi := none,
    rendering_provider_npi := none }

/-- Claim B of the posting-move scenario: 50 in charges, no postings. -/
def moveClaim2 : Claim :=
  { id := 2, claim_number := "B", patient_id := 1, primary_insurance_id := 2,
    claim_status := "SUBMITTED", total_charges := 50, total_paid := some 0,
    patient_responsibility := some 50, primary_diagnosis_code := none,
    place_of_service := none, billing_provider_npi := none,
    rendering_provider_npi := none }

/-- The CHECK posting of 40 on claim A, posted by user 5. -/
def movePosting : PaymentPosting := ⟨10, 1, none, "INSURANCE", "CHECK", 40, some 5⟩

/-- Store for the posting-move scenario. -/
def moveDB : DB :=
  { claims := [moveClaim1, moveClaim2], line_items := [], payment_postings := [movePosting],
    denials := [], eras := [], era_claim_details := [], patients := [],
    patient_insurance := [], insurance_providers := [],
    auto_posting_enabled := false, next_id := 11 }

/-- Update body moving the posting from claim A to claim B. -/
def moveInput : PaymentInput := ⟨2, "INSURANCE", "CHECK", 40⟩

/-- Store after the posting-move update. -/
def movedDB : DB :=
  match updatePayment moveDB 10 moveInput with
  | .ok d => d
  | .error _ => moveDB

/-- A line item with charge amount zero (and a service date). -/
def zeroChargeItem : LineItemInput := ⟨some 1, some "99213", some "20240115", none, some 0⟩

/-- A claim create body whose only line item has charge amount zero. -/
def zeroChargeInput : ClaimInput :=
  { patient_id := some 1, primary_insurance_id := some 2,
    claim_type := some "PROFESSIONAL", service_date_from := some "20240101",
    service_date_to := some "20240102", primary_diagnosis_code := some "A00",
    place_of_service := some "11", billing_provider_npi := some "B1",
    rendering_provider_npi := some "R1", line_items := [zeroChargeItem] }

/-- Fault oracle failing exactly on the claim detail for claim C2. -/
def failOnC2 : FaultEnv := ⟨fun d => d.claim_number == some "C2"⟩

/-- A two-claim remittance file whose second claim detail insert fails
under `failOnC2`. -/
def twoClaimContent : String := "CLP*C1*1*100*100*0\nCLP*C2*1*50*50*0"

/-- Store after the failing ingestion run of `twoClaimContent`. -/
def failedRunDB : DB := (processERAFile failOnC2 emptyDB twoClaimContent "era1.txt" 0).1

/-- The remittance row as first stored by `processERAFile`, still in
status PROCESSING. -/
def pendingEraRec (db : DB) (content filePath : String) : EraRec :=
  { id := db.next_id
    era_number := (parseERAFile content).era_number
    payer_name := (parseERAFile content).payer_name
    check_date := (parseERAFile content).check_date
    check_amount := (parseERAFile content).check_amount
    era_file_path := filePath
    processing_status := "PROCESSING" }

/-- Gateway response for a successful submission. -/
def gwOk : GatewayResponse := ⟨true, some "CH123", some "ACCEPTED", none⟩

/-- Gateway response for a failed submission. -/
def gwFail : GatewayResponse := ⟨false, none, none, some "payer timeout"⟩

lemma processLine_claims (st : PState) (l : String) :
    (processLine st l).claims =
      if lineTag l = "CLP" then st.claims ++ st.currentClaim.toList else st.claims := by
  simp only [processLine, lineTag]
  split_ifs <;> simp_all

lemma processLine_currentClaim (st : PState) (l : String) :
    (processLine st l).currentClaim =
      if lineTag l = "CLP" then some (startClaim (jsSplit l '*'))
      else st.currentClaim.map (fun c => stepClaim c l) := by
  simp only [processLine, stepClaim, lineTag]
  split_ifs <;> simp_all

lemma foldl_processLine_claims (ls : List String) : ∀ st : PState,
    (ls.foldl processLine st).claims ++ (ls.foldl processLine st).currentClaim.toList =
      st.claims ++ collectClaims st.currentClaim ls := by
  induction ls with
  | nil => intro st; rfl
  | cons l ls ih =>
    intro st
    rw [List.foldl_cons, ih (processLine st l)]
    rw [processLine_claims, processLine_currentClaim]
    by_cases h : lineTag l = "CLP"
    · simp only [h, if_true, collectClaims, List.append_assoc]
    · simp only [h, if_false, collectClaims, if_neg h]

lemma collectClaims_some (ls : List String) : ∀ c : ClaimDetail,
    collectClaims (some c) ls =
      (ls.takeWhile (fun x => !(decide (lineTag x = "CLP")))).foldl stepClaim c ::
        collectClaims none (ls.dropWhile (fun x => !(decide (lineTag x = "CLP")))) := by
  induction ls with
  | nil => intro c; rfl
  | cons l ls ih =>
    intro c
    by_cases h : lineTag l = "CLP"
    · rw [List.takeWhile_cons, List.dropWhile_cons]
      simp [collectClaims, h]
    · rw [List.takeWhile_cons, List.dropWhile_cons]
      simp only [collectClaims, if_neg h, Option.map_some]
      simp only [decide_eq_false h, Bool.not_false, if_true, List.foldl_cons]
      exact ih (stepClaim c l)

lemma collectClaims_none_dropWhile (ls : List String) :
    collectClaims none (ls.dropWhile (fun x => !(decide (lineTag x = "CLP")))) =
      collectClaims none ls := by
  induction ls with
  | nil => rfl
  | cons l ls ih =>
    by_cases h : lineTag l = "CLP"
    · rw [List.dropWhile_cons]
      simp [h]
    · rw [List.dropWhile_cons]
      simp only [decide_eq_false h, Bool.not_false, if_true, ih]
      simp [collectClaims, if_neg h]

lemma collectClaims_none_sections (ls : List String) :
    collectClaims none ls = (sections ls).map sectionClaim := by
  induction ls with
  | nil => rfl
  | cons l ls ih =>
    by_cases h : lineTag l = "CLP"
    · simp only [collectClaims, if_pos h, Option.toList_none, List.nil_append]
      rw [collectClaims_some, collectClaims_none_dropWhile, ih]
      simp [sections, if_pos h, sectionClaim]
    · simp only [collectClaims, if_neg h, Option.map_none, ih]
      simp only [sections, if_neg h]
      exact ih

lemma parseERALines_claims (ls : List String) :
    (parseERALines ls).claims = (sections ls).map sectionClaim := by
  have h := foldl_processLine_claims ls initState
  calc (parseERALines ls).claims
      = (ls.foldl processLine initState).claims ++
        (ls.foldl processLine initState).currentClaim.toList := rfl
    _ = initState.claims ++ collectClaims initState.currentClaim ls := h
    _ = (sections ls).map sectionClaim := by
        simp only [initState, List.nil_append]
        exact collectClaims_none_sections ls

lemma sections_fst (ls : List String) :
    (sections ls).map Prod.fst = ls.filter (fun l => decide (lineTag l = "CLP")) := by
  induction ls with
  | nil => rfl
  | cons l ls ih =>
    by_cases h : lineTag l = "CLP"
    · simp [sections, if_pos h, List.filter, h, ih]
    · simp [sections, if_neg h, List.filter, decide_eq_false h, ih]

lemma stepClaim_fixed_fields (c : ClaimDetail) (l : String) :
    (stepClaim c l).claim_number = c.claim_number ∧
    (stepClaim c l).claim_status_code = c.claim_status_code ∧
    (stepClaim c l).total_charge_amount = c.total_charge_amount ∧
    (stepClaim c l).total_paid_amount = c.total_paid_amount ∧
    (stepClaim c l).patient_responsibility = c.patient_responsibility ∧
    (stepClaim c l).claim_status_description = c.claim_status_description := by
  simp only [stepClaim, nm1Step, dtmStep]
  split_ifs <;> simp_all

lemma stepClaim_patient_name (c : ClaimDetail) (l : String) :
    (stepClaim c l).patient_name =
      match nm1Value l with
      | some v => some v
      | none => c.patient_name := by
  simp only [stepClaim, nm1Step, dtmStep, nm1Value]
  split_ifs <;> simp_all

lemma stepClaim_date_from (c : ClaimDetail) (l : String) :
    (stepClaim c l).service_date_from =
      match dtm232Value l with
      | some v => v
      | none => c.service_date_from := by
  simp only [stepClaim, nm1Step, dtmStep, dtm232Value]
  split_ifs <;> simp_all

lemma stepClaim_date_to (c : ClaimDetail) (l : String) :
    (stepClaim c l).service_date_to =
      match dtm233Value l with
      | some v => v
      | none => c.service_date_to := by
  simp only [stepClaim, nm1Step, dtmStep, dtm233Value]
  split_ifs <;> simp_all

lemma foldl_stepClaim_fixed (body : List String) : ∀ c : ClaimDetail,
    (body.foldl stepClaim c).claim_number = c.claim_number ∧
    (body.foldl stepClaim c).claim_status_code = c.claim_status_code ∧
    (body.foldl stepClaim c).total_charge_amount = c.total_charge_amount ∧
    (body.foldl stepClaim c).total_paid_amount = c.total_paid_amount ∧
    (body.foldl stepClaim c).patient_responsibility = c.patient_responsibility ∧
    (body.foldl stepClaim c).claim_status_description = c.claim_status_description := by
  induction body with
  | nil => intro c; exact ⟨rfl, rfl, rfl, rfl, rfl, rfl⟩
  | cons l body ih =>
    intro c
    rw [List.foldl_cons]
    have h1 := ih (stepClaim c l)
    have h2 := stepClaim_fixed_fields c l
    exact ⟨h1.1.trans h2.1, h1.2.1.trans h2.2.1, h1.2.2.1.trans h2.2.2.1,
      h1.2.2.2.1.trans h2.2.2.2.1, h1.2.2.2.2.1.trans h2.2.2.2.2.1,
      h1.2.2.2.2.2.trans h2.2.2.2.2.2⟩

lemma foldl_stepClaim_patient_name (body : List String) : ∀ c : ClaimDetail,
    (body.foldl stepClaim c).patient_name =
      match lastSome nm1Value body with
      | some v => some v
      | none => c.patient_name := by
  induction body with
  | nil => intro c; rfl
  | cons l body ih =>
    intro c
    rw [List.foldl_cons, ih (stepClaim c l), stepClaim_patient_name]
    simp only [lastSome]
    cases lastSome nm1Value body <;> cases h : nm1Value l <;> simp [h]

lemma foldl_stepClaim_date_from (body : List String) : ∀ c : ClaimDetail,
    (body.foldl stepClaim c).service_date_from =
      match lastSome dtm232Value body with
      | some v => v
      | none => c.service_date_from := by
  induction body with
  | nil => intro c; rfl
  | cons l body ih =>
    intro c
    rw [List.foldl_cons, ih (stepClaim c l), stepClaim_date_from]
    simp only [lastSome]
    cases lastSome dtm232Value body <;> cases h : dtm232Value l <;> simp [h]

lemma foldl_stepClaim_date_to (body : List String) : ∀ c : ClaimDetail,
    (body.foldl stepClaim c).service_date_to =
      match lastSome dtm233Value body with
      | some v => v
      | none => c.service_date_to := by
  induction body with
  | nil => intro c; rfl
  | cons l body ih =>
    intro c
    rw [List.foldl_cons, ih (stepClaim c l), stepClaim_date_to]
    simp only [lastSome]
    cases lastSome dtm233Value body <;> cases h : dtm233Value l <;> simp [h]

/-- C2: parsing a remittance with N CLP segments yields exactly N
claim-detail records, in input order (record i comes from the i-th CLP
line); each record carries the claim number, status code, amounts and
status description of its own CLP segment, and the patient name and
service dates of exactly the NM1(QC) and DTM(232/233) segments that
appeared between that CLP and the next (the last such segment when
there are several, none when there are none). -/
theorem C2_parser_per_clp_records :
    (∀ content : String,
      (parseERAFile content).claims =
        (sections (jsSplit content '\n')).map sectionClaim ∧
      (sections (jsSplit content '\n')).map Prod.fst =
        (jsSplit content '\n').filter (fun l => decide (lineTag l = "CLP")) ∧
      (parseERAFile content).claims.length =
        ((jsSplit content '\n').filter (fun l => decide (lineTag l = "CLP"))).length) ∧
    (∀ (clp : String) (body : List String),
      (sectionClaim (clp, body)).claim_number = segField (jsSplit clp '*') 1 ∧
      (sectionClaim (clp, body)).claim_status_code = segField (jsSplit clp '*') 2 ∧
      (sectionClaim (clp, body)).total_charge_amount =
        jsParseFloat (segField (jsSplit clp '*') 3) ∧
      (sectionClaim (clp, body)).total_paid_amount =
        jsParseFloat (segField (jsSplit clp '*') 4) ∧
      (sectionClaim (clp, body)).patient_responsibility =
        jsParseFloat (segField (jsSplit clp '*') 5) ∧
      (sectionClaim (clp, body)).claim_status_description =
        getClaimStatusDescription (segField (jsSplit clp '*') 2) ∧
      (sectionClaim (clp, body)).patient_name = lastSome nm1Value body ∧
      (sectionClaim (clp, body)).service_date_from = (lastSome dtm232Value body).join ∧
      (sectionClaim (clp, body)).service_date_to = (lastSome dtm233Value body).join) := by
  constructor
  · intro content
    have hclaims : (parseERAFile content).claims =
        (sections (jsSplit content '\n')).map sectionClaim :=
      parseERALines_claims (jsSplit content '\n')
    refine ⟨hclaims, sections_fst (jsSplit content '\n'), ?_⟩
    rw [hclaims, List.length_map, ← sections_fst (jsSplit content '\n'), List.length_map]
  · intro clp body
    have hfix := foldl_stepClaim_fixed body (startClaim (jsSplit clp '*'))
    have hname := foldl_stepClaim_patient_name body (startClaim (jsSplit clp '*'))
    have hfrom := foldl_stepClaim_date_from body (startClaim (jsSplit clp '*'))
    have hto := foldl_stepClaim_date_to body (startClaim (jsSplit clp '*'))
    refine ⟨hfix.1, hfix.2.1, hfix.2.2.1, hfix.2.2.2.1, hfix.2.2.2.2.1, hfix.2.2.2.2.2,
      ?_, ?_, ?_⟩
    · rw [show sectionClaim (clp, body) = body.foldl stepClaim (startClaim (jsSplit clp '*'))
        from rfl, hname]
      cases lastSome nm1Value body <;> rfl
    · rw [show sectionClaim (clp, body) = body.foldl stepClaim (startClaim (jsSplit clp '*'))
        from rfl, hfrom]
      cases lastSome dtm232Value body <;> rfl
    · rw [show sectionClaim (clp, body) = body.foldl stepClaim (startClaim (jsSplit clp '*'))
        from rfl, hto]
      cases lastSome dtm233Value body <;> rfl

/-- C10 counterexample: the parser stores the NM1(QC) name as field 4
followed by field 3 — for NM1*QC*1*DOE*JOHN it records "JOHN DOE",
not "DOE JOHN" as the claim (field 3 then field 4) requires. -/
theorem C10_counterexample :
    (parseERAFile "CLP*C1*1*100*100*0\nNM1*QC*1*DOE*JOHN").claims.map
        (fun c => c.patient_name) = [some "JOHN DOE"] ∧
      some "JOHN DOE" ≠ some "DOE JOHN" := by
  constructor
  · decide
  · decide

/-- C10 amended: for every NM1 segment with qualifier QC processed
while a claim accumulator is open, the parser sets the accumulator's
patient_name to the first-name field (field 4) followed by the
last-name field (field 3), in that order, separated by a space. -/
theorem C10_nm1_first_then_last :
    (∀ (segs : List String) (c : ClaimDetail), segField segs 1 = some "QC" →
      (nm1Step segs c).patient_name =
        some (jsStr (segField segs 4) ++ " " ++ jsStr (segField segs 3))) ∧
    (∀ (st : PState) (line : String), lineTag line = "NM1" →
      (processLine st line).currentClaim =
        st.currentClaim.map (nm1Step (jsSplit line '*'))) := by
  constructor
  · intro segs c h
    simp [nm1Step, h]
  · intro st line h
    rw [processLine_currentClaim, if_neg (by simp [h])]
    cases st.currentClaim <;> simp [stepClaim, lineTag] at * <;> simp [h]

/-- C10 witness: the amended statement evaluated on the segment
NM1*QC*1*DOE*JOHN. -/
theorem C10_nm1_witness :
    (nm1Step ["NM1", "QC", "1", "DOE", "JOHN"] (startClaim ["CLP", "C1", "1"])).patient_name =
      some (jsStr (segField ["NM1", "QC", "1", "DOE", "JOHN"] 4) ++ " " ++
        jsStr (segField ["NM1", "QC", "1", "DOE", "JOHN"] 3)) :=
  C10_nm1_first_then_last.1 ["NM1", "QC", "1", "DOE", "JOHN"]
    (startClaim ["CLP", "C1", "1"]) (by decide)

section ProcessClaim

variable {env : FaultEnv} {db : DB} {eraId : Nat} {d : ClaimDetail} {now : Nat}
  {n : String} {claim : Claim}

lemma processERAClaim_matched_snd (hfail : env.detailCreateFails d = false)
    (hnum : d.claim_number = some n)
    (hfind : db.claims.find? (fun c => c.claim_number == n) = some claim) :
    (processERAClaim env db eraId d now).2 = none := by
  simp only [processERAClaim, hnum, hfind]
  rw [if_neg (by simp [hfail])]

lemma processERAClaim_matched_claims (hfail : env.detailCreateFails d = false)
    (hnum : d.claim_number = some n)
    (hfind : db.claims.find? (fun c => c.claim_number == n) = some claim) :
    (processERAClaim env db eraId d now).1.claims =
      db.claims.map (fun c =>
        if c.id == claim.id then
          { c with claim_status := mapERAStatusToClaimStatus d.claim_status_code,
                   total_paid := d.total_paid_amount,
                   patient_responsibility := d.patient_responsibility }
        else c) := by
  simp only [processERAClaim, hnum, hfind]
  rw [if_neg (by simp [hfail])]
  split <;> split <;> simp [autoPostPayment, createDenialRecord]

lemma processERAClaim_matched_denials (hfail : env.detailCreateFails d = false)
    (hnum : d.claim_number = some n)
    (hfind : db.claims.find? (fun c => c.claim_number == n) = some claim) :
    (isClaimDenied d.claim_status_code = true →
      ∃ dn : Denial, (processERAClaim env db eraId d now).1.denials = db.denials ++ [dn] ∧
        dn.claim_id = claim.id ∧ dn.denial_reason_code = d.claim_status_code ∧
        dn.denial_reason_description = d.claim_status_description ∧
        dn.denial_category = categorizeDenial d.claim_status_code ∧
        dn.priority = getDenialPriority d.claim_status_code ∧
        dn.resolution_status = "OPEN" ∧ dn.denial_date = now ∧
        dn.appeal_deadline = now + 90 ∧ dn.follow_up_date = now + 14) ∧
    (isClaimDenied d.claim_status_code = false →
      (processERAClaim env db eraId d now).1.denials = db.denials) := by
  constructor
  · intro hden
    simp only [processERAClaim, hnum, hfind]
    rw [if_neg (by simp [hfail]), if_pos hden]
    by_cases hap : (db.auto_posting_enabled && jsGt d.total_paid_amount 0) = true
    · rw [if_pos hap]
      exact ⟨_, rfl, rfl, rfl, rfl, rfl, rfl, rfl, rfl, rfl, rfl⟩
    · rw [if_neg hap]
      exact ⟨_, rfl, rfl, rfl, rfl, rfl, rfl, rfl, rfl, rfl, rfl⟩
  · intro hden
    simp only [processERAClaim, hnum, hfind]
    rw [if_neg (by simp [hfail]), if_neg (by simp [hden])]
    by_cases hap : (db.auto_posting_enabled && jsGt d.total_paid_amount 0) = true
    · rw [if_pos hap]; rfl
    · rw [if_neg hap]

lemma processERAClaim_matched_postings (hfail : env.detailCreateFails d = false)
    (hnum : d.claim_number = some n)
    (hfind : db.claims.find? (fun c => c.claim_number == n) = some claim) :
    ((db.auto_posting_enabled && jsGt d.total_paid_amount 0) = true →
      (processERAClaim env db eraId d now).1.payment_postings =
        db.payment_postings ++
          [{ id := db.next_id + 1, claim_id := claim.id, era_id := some eraId,
             payment_type := "INSURANCE", payment_method := "ERA",
             payment_amount := d.total_paid_amount.getD 0, posted_by := none }]) ∧
    ((db.auto_posting_enabled && jsGt d.total_paid_amount 0) = false →
      (processERAClaim env db eraId d now).1.payment_postings =
        db.payment_postings) := by
  constructor <;> intro hap
  · simp only [processERAClaim, hnum, hfind]
    rw [if_neg (by simp [hfail])]
    by_cases hden : isClaimDenied d.claim_status_code = true
    · rw [if_pos hden, if_pos hap]
      simp [createDenialRecord, autoPostPayment]
    · rw [if_neg hden, if_pos hap]
      simp [autoPostPayment]
  · simp only [processERAClaim, hnum, hfind]
    rw [if_neg (by simp [hfail])]
    by_cases hden : isClaimDenied d.claim_status_code = true
    · rw [if_pos hden, if_neg (by simp [hap])]
      simp [createDenialRecord]
    · rw [if_neg hden, if_neg (by simp [hap])]

end ProcessClaim

/-- C3: for a remittance detail matched to a stored claim, the payer
status code maps to the claim status via the static table — code 1
gives PAID with no denial created, code 4 gives DENIED with a denial
created, and an unmapped code such as 99 falls back to SUBMITTED with
status description "Unknown Status". -/
theorem C3_status_code_mapping :
    (mapERAStatusToClaimStatus (some "1") = "PAID" ∧
      isClaimDenied (some "1") = false ∧
      mapERAStatusToClaimStatus (some "4") = "DENIED" ∧
      isClaimDenied (some "4") = true ∧
      mapERAStatusToClaimStatus (some "99") = "SUBMITTED" ∧
      getClaimStatusDescription (some "99") = "Unknown Status") ∧
    (∀ (env : FaultEnv) (db : DB) (eraId : Nat) (d : ClaimDetail) (now : Nat)
        (n : String) (claim : Claim),
      env.detailCreateFails d = false →
      d.claim_number = some n →
      db.claims.find? (fun c => c.claim_number == n) = some claim →
      (∀ c ∈ (processERAClaim env db eraId d now).1.claims, c.id = claim.id →
        c.claim_status = mapERAStatusToClaimStatus d.claim_status_code) ∧
      (isClaimDenied d.claim_status_code = true →
        ∃ dn : Denial,
          (processERAClaim env db eraId d now).1.denials = db.denials ++ [dn] ∧
          dn.claim_id = claim.id ∧ dn.resolution_status = "OPEN") ∧
      (isClaimDenied d.claim_status_code = false →
        (processERAClaim env db eraId d now).1.denials = db.denials)) ∧
    (∀ segs : List String, segField segs 2 = some "99" →
      (startClaim segs).claim_status_description = "Unknown Status") := by
  refine ⟨⟨rfl, rfl, rfl, rfl, rfl, rfl⟩, ?_, ?_⟩
  · intro env db eraId d now n claim hfail hnum hfind
    refine ⟨?_, ?_, ?_⟩
    · intro c hc hid
      rw [processERAClaim_matched_claims hfail hnum hfind] at hc
      obtain ⟨a, ha, rfl⟩ := List.mem_map.mp hc
      by_cases h : a.id == claim.id
      · simp [h]
      · rw [if_neg h] at hid ⊢
        exact absurd (by simp [hid]) h
    · intro hden
      obtain ⟨dn, h1, h2, _, _, _, _, h7, _⟩ :=
        (processERAClaim_matched_denials hfail hnum hfind).1 hden
      exact ⟨dn, h1, h2, h7⟩
    · exact (processERAClaim_matched_denials hfail hnum hfind).2
  · intro segs h
    simp [startClaim, getClaimStatusDescription, h]

/-- C3 witness: processing the code-1 detail `exDetailPaid` against
`exDB` creates no denial record. -/
theorem C3_status_code_mapping_witness :
    (processERAClaim noFault exDB 42 exDetailPaid 0).1.denials = exDB.denials :=
  (C3_status_code_mapping.2.1 noFault exDB 42 exDetailPaid 0 "CLM1" exClaim1
    rfl rfl (by decide)).2.2 rfl

/-- C9: a denial record created from a remittance detail starts OPEN,
its category comes from the four static code lists with default OTHER,
its priority from the static urgent and high lists with default MEDIUM,
its appeal_deadline is denial_date plus 90 days, and its
follow_up_date is denial_date plus 14 days. -/
theorem C9_denial_derivation :
    (∀ (db : DB) (claimId : Nat) (d : ClaimDetail) (now : Nat),
      (createDenialRecord db claimId d now).denials = db.denials ++
        [{ id := db.next_id, claim_id := claimId, denial_date := now,
           denial_reason_code := d.claim_status_code,
           denial_reason_description := d.claim_status_description,
           denial_category := categorizeDenial d.claim_status_code,
           priority := getDenialPriority d.claim_status_code,
           resolution_status := "OPEN",
           appeal_deadline := now + 90, follow_up_date := now + 14 }]) ∧
    (∀ r : String,
      (r ∈ technicalCodes → categorizeDenial (some r) = "TECHNICAL") ∧
      (r ∈ clinicalCodes → categorizeDenial (some r) = "CLINICAL") ∧
      (r ∈ authorizationCodes → categorizeDenial (some r) = "AUTHORIZATION") ∧
      (r ∈ eligibilityCodes → r ∉ technicalCodes →
        categorizeDenial (some r) = "ELIGIBILITY") ∧
      (r ∉ technicalCodes → r ∉ clinicalCodes → r ∉ authorizationCodes →
        r ∉ eligibilityCodes → categorizeDenial (some r) = "OTHER")) ∧
    (∀ r : String,
      (r ∈ urgentCodes → getDenialPriority (some r) = "URGENT") ∧
      (r ∈ highPriorityCodes → r ∉ urgentCodes → getDenialPriority (some r) = "HIGH") ∧
      (r ∉ urgentCodes → r ∉ highPriorityCodes →
        getDenialPriority (some r) = "MEDIUM")) := by
  refine ⟨fun db claimId d now => rfl, ?_, ?_⟩
  · intro r
    refine ⟨?_, ?_, ?_, ?_, ?_⟩
    · intro hr
      simp only [technicalCodes, List.mem_cons, List.not_mem_nil, or_false] at hr
      rcases hr with rfl | rfl | rfl | rfl <;> decide
    · intro hr
      simp only [clinicalCodes, List.mem_cons, List.not_mem_nil, or_false] at hr
      rcases hr with rfl | rfl | rfl | rfl | rfl <;> decide
    · intro hr
      simp only [authorizationCodes, List.mem_cons, List.not_mem_nil, or_false] at hr
      rcases hr with rfl | rfl | rfl | rfl | rfl <;> decide
    · intro hr ht
      simp only [categorizeDenial, if_neg ht]
      simp only [eligibilityCodes, List.mem_cons, List.not_mem_nil, or_false] at hr
      have hcl : r ∉ clinicalCodes := by
        rcases hr with rfl | rfl | rfl | rfl <;> decide
      have hau : r ∉ authorizationCodes := by
        rcases hr with rfl | rfl | rfl | rfl <;> decide
      have hel : r ∈ eligibilityCodes := by
        rcases hr with rfl | rfl | rfl | rfl <;> decide
      simp [hcl, hau, hel]
    · intro h1 h2 h3 h4
      simp [categorizeDenial, h1, h2, h3, h4]
  · intro r
    refine ⟨?_, ?_, ?_⟩
    · intro hr
      simp only [urgentCodes, List.mem_cons, List.not_mem_nil, or_false] at hr
      rcases hr with rfl | rfl <;> decide
    · intro hr hu
      simp only [getDenialPriority, if_neg hu]
      simp [hr]
    · intro h1 h2
      simp [getDenialPriority, h1, h2]

/-- C9 witness: the shared code 27 categorizes as TECHNICAL (the
technical list is checked first), code 13 gets the default MEDIUM
priority, and a concrete denial record from a code-4 detail starts
OPEN with the 90- and 14-day dates. -/
theorem C9_denial_derivation_witness :
    categorizeDenial (some "27") = "TECHNICAL" ∧
    getDenialPriority (some "13") = "MEDIUM" ∧
    (createDenialRecord emptyDB 1 exDetailDenied 100).denials = emptyDB.denials ++
      [{ id := emptyDB.next_id, claim_id := 1, denial_date := 100,
         denial_reason_code := exDetailDenied.claim_status_code,
         denial_reason_description := exDetailDenied.claim_status_description,
         denial_category := categorizeDenial exDetailDenied.claim_status_code,
         priority := getDenialPriority exDetailDenied.claim_status_code,
         resolution_status := "OPEN",
         appeal_deadline := 190, follow_up_date := 114 }] :=
  ⟨(C9_denial_derivation.2.1 "27").1 (by decide),
   (C9_denial_derivation.2.2 "13").2.2 (by decide) (by decide),
   C9_denial_derivation.1 emptyDB 1 exDetailDenied 100⟩

/-- C8 amended: for a matched remittance detail, if the auto-posting
flag is on and the paid amount is positive, exactly one INSURANCE/ERA
posting with no human poster is created and the claim's `total_paid`
and `patient_responsibility` are then overwritten with the amounts the
payer reported in the detail (they are not recomputed from the
postings); if the flag is off, no posting is created but the status
and denial handling driven by the same detail still run. -/
theorem C8_auto_posting_flag :
    ∀ (env : FaultEnv) (db : DB) (eraId : Nat) (d : ClaimDetail) (now : Nat)
      (n : String) (claim : Claim),
      env.detailCreateFails d = false →
      d.claim_number = some n →
      db.claims.find? (fun c => c.claim_number == n) = some claim →
      ((db.auto_posting_enabled && jsGt d.total_paid_amount 0) = true →
        (processERAClaim env db eraId d now).1.payment_postings =
          db.payment_postings ++
            [{ id := db.next_id + 1, claim_id := claim.id, era_id := some eraId,
               payment_type := "INSURANCE", payment_method := "ERA",
               payment_amount := d.total_paid_amount.getD 0, posted_by := none }]) ∧
      (db.auto_posting_enabled = false →
        (processERAClaim env db eraId d now).1.payment_postings =
          db.payment_postings) ∧
      (∀ c ∈ (processERAClaim env db eraId d now).1.claims, c.id = claim.id →
        c.claim_status = mapERAStatusToClaimStatus d.claim_status_code ∧
        c.total_paid = d.total_paid_amount ∧
        c.patient_responsibility = d.patient_responsibility) ∧
      (isClaimDenied d.claim_status_code = false →
        (processERAClaim env db eraId d now).1.denials = db.denials) ∧
      (isClaimDenied d.claim_status_code = true →
        ∃ dn : Denial,
          (processERAClaim env db eraId d now).1.denials = db.denials ++ [dn] ∧
          dn.claim_id = claim.id) := by
  intro env db eraId d now n claim hfail hnum hfind
  refine ⟨(processERAClaim_matched_postings hfail hnum hfind).1, ?_, ?_, ?_, ?_⟩
  · intro hoff
    exact (processERAClaim_matched_postings hfail hnum hfind).2 (by simp [hoff])
  · intro c hc hid
    rw [processERAClaim_matched_claims hfail hnum hfind] at hc
    obtain ⟨a, ha, rfl⟩ := List.mem_map.mp hc
    by_cases h : a.id == claim.id
    · simp [h]
    · rw [if_neg h] at hid ⊢
      exact absurd (by simp [hid]) h
  · exact (processERAClaim_matched_denials hfail hnum hfind).2
  · intro hden
    obtain ⟨dn, h1, h2, _⟩ :=
      (processERAClaim_matched_denials hfail hnum hfind).1 hden
    exact ⟨dn, h1, h2⟩

/-- C8 counterexample to the claim as stated: processing the paid
detail (500 charged, 300 paid, 100 patient responsibility) against
`exDB` with auto-posting on creates the system posting, but the stored
patient_responsibility is the payer-reported 100, not the
`max(0, 500 − 300 − 0) = 200` that recomputing the aggregates from the
postings would give — the reconciliation invariant does not hold after
the run. -/
theorem C8_counterexample :
    ((processERAClaim noFault exDB 42 exDetailPaid 0).1.payment_postings.map
        (fun p => (p.claim_id, p.payment_type, p.payment_method, p.posted_by))) =
      [(1, "INSURANCE", "ERA", (none : Option Nat))] ∧
    paidSum (processERAClaim noFault exDB 42 exDetailPaid 0).1 1 = 300 ∧
    adjSum (processERAClaim noFault exDB 42 exDetailPaid 0).1 1 = 0 ∧
    ((processERAClaim noFault exDB 42 exDetailPaid 0).1.claims.map
        (fun c => (c.total_charges, c.patient_responsibility))) =
      [((500 : Rat), some (100 : Rat))] ∧
    (100 : Rat) ≠ max 0 ((500 : Rat) - 300 - 0) ∧
    ¬ invariantAt (processERAClaim noFault exDB 42 exDetailPaid 0).1 1 := by
  have hps : paidSum (processERAClaim noFault exDB 42 exDetailPaid 0).1 1 = 300 := by
    with_unfolding_all rfl
  have has : adjSum (processERAClaim noFault exDB 42 exDetailPaid 0).1 1 = 0 := by
    with_unfolding_all rfl
  have hneq : (100 : Rat) ≠ max 0 ((500 : Rat) - 300 - 0) := by norm_num
  refine ⟨by with_unfolding_all rfl, hps, has, by with_unfolding_all rfl, hneq, ?_⟩
  intro h
  have hfind : (processERAClaim noFault exDB 42 exDetailPaid 0).1.claims.find?
      (fun c => c.id == 1) = some
        { exClaim1 with claim_status := "PAID", total_paid := some 300,
                        patient_responsibility := some 100 } := by
    with_unfolding_all rfl
  have h2 := (h _ hfind).2
  rw [hps, has] at h2
  simp only [exClaim1] at h2
  exact hneq (Option.some_injective _ h2)

/-- C8 witness: the amended statement at `exDB` (flag on — one system
posting appears) and `exDBoff` (flag off — postings unchanged). -/
theorem C8_auto_posting_flag_witness :
    (processERAClaim noFault exDB 42 exDetailPaid 0).1.payment_postings =
      exDB.payment_postings ++
        [{ id := exDB.next_id + 1, claim_id := exClaim1.id, era_id := some 42,
           payment_type := "INSURANCE", payment_method := "ERA",
           payment_amount := exDetailPaid.total_paid_amount.getD 0,
           posted_by := none }] ∧
    (processERAClaim noFault exDBoff 42 exDetailPaid 0).1.payment_postings =
      exDBoff.payment_postings :=
  ⟨(C8_auto_posting_flag noFault exDB 42 exDetailPaid 0 "CLM1" exClaim1
      rfl rfl (by decide)).1 (by with_unfolding_all rfl),
   ((C8_auto_posting_flag noFault exDBoff 42 exDetailPaid 0 "CLM1" exClaim1
      rfl rfl (by decide)).2.1) rfl⟩

section Ingestion

variable (env : FaultEnv) (eraId now : Nat)

lemma processERAClaim_fail (db : DB) (d : ClaimDetail)
    (h : env.detailCreateFails d = true) :
    processERAClaim env db eraId d now = (db, some "era claim detail insert failed") := by
  simp [processERAClaim, h]

lemma processERAClaim_ok_snd (db : DB) (d : ClaimDetail)
    (h : env.detailCreateFails d = false) :
    (processERAClaim env db eraId d now).2 = none := by
  cases hd : d.claim_number with
  | none => simp [processERAClaim, h, hd]
  | some n =>
    cases hfind : db.claims.find? (fun c => c.claim_number == n) with
    | none => simp [processERAClaim, h, hd, hfind]
    | some claim =>
      simp only [processERAClaim, hd, hfind]
      rw [if_neg (by simp [h])]

lemma processERAClaim_eras (db : DB) (d : ClaimDetail) :
    (processERAClaim env db eraId d now).1.eras = db.eras := by
  cases hf : env.detailCreateFails d with
  | true => simp [processERAClaim, hf]
  | false =>
    cases hd : d.claim_number with
    | none => simp [processERAClaim, hf, hd]
    | some n =>
      cases hfind : db.claims.find? (fun c => c.claim_number == n) with
      | none => simp [processERAClaim, hf, hd, hfind]
      | some claim =>
        simp only [processERAClaim, hd, hfind]
        rw [if_neg (by simp [hf])]
        split <;> split <;> simp [autoPostPayment, createDenialRecord]

lemma processClaimsLoop_eras (ds : List ClaimDetail) : ∀ db : DB,
    (processClaimsLoop env eraId now db ds).1.eras = db.eras := by
  induction ds with
  | nil => intro db; rfl
  | cons d ds ih =>
    intro db
    simp only [processClaimsLoop]
    cases hp : processERAClaim env db eraId d now with
    | mk db1 err =>
      cases err with
      | none =>
        have : db1.eras = db.eras := by
          have := processERAClaim_eras env eraId now db d
          rw [hp] at this
          exact this
        rw [ih db1, this]
      | some e =>
        have : db1.eras = db.eras := by
          have := processERAClaim_eras env eraId now db d
          rw [hp] at this
          exact this
        simpa using this

lemma processClaimsLoop_failure (ds : List ClaimDetail) : ∀ (db : DB) (e : String),
    (processClaimsLoop env eraId now db ds).2 = some e →
    e = "era claim detail insert failed" ∧
    ∃ pre d post, ds = pre ++ d :: post ∧
      env.detailCreateFails d = true ∧
      (∀ x ∈ pre, env.detailCreateFails x = false) ∧
      (processClaimsLoop env eraId now db ds).1 =
        (processClaimsLoop env eraId now db pre).1 := by
  induction ds with
  | nil => intro db e h; exact absurd h (by simp [processClaimsLoop])
  | cons d ds ih =>
    intro db e h
    cases hf : env.detailCreateFails d with
    | true =>
      have hloop : processClaimsLoop env eraId now db (d :: ds) =
          (db, some "era claim detail insert failed") := by
        simp only [processClaimsLoop, processERAClaim_fail env eraId now db d hf]
      rw [hloop] at h ⊢
      refine ⟨by simpa using h.symm, [], d, ds, rfl, hf, by simp, rfl⟩
    | false =>
      have hsnd := processERAClaim_ok_snd env eraId now db d hf
      have hsplit : processERAClaim env db eraId d now =
          ((processERAClaim env db eraId d now).1, none) := by
        rw [← hsnd]
      have hloop : processClaimsLoop env eraId now db (d :: ds) =
          processClaimsLoop env eraId now (processERAClaim env db eraId d now).1 ds := by
        rw [processClaimsLoop, hsplit]
      rw [hloop] at h ⊢
      obtain ⟨he, pre, dd, post, hds, hdd, hpre, hdb⟩ :=
        ih (processERAClaim env db eraId d now).1 e h
      refine ⟨he, d :: pre, dd, post, by simp [hds], hdd, ?_, ?_⟩
      · intro x hx
        rcases List.mem_cons.mp hx with rfl | hx
        · exact hf
        · exact hpre x hx
      · rw [hdb, processClaimsLoop, hsplit]

end Ingestion

/-- C7 amended: when a remittance ingestion run fails on a claim
detail, the run reports the cause and returns failure, but the stored
remittance row is left in status PROCESSING (it is never marked ERROR),
and the work done before the failing detail remains persisted: the
final store is exactly the store after processing the details that
preceded the first failing one. -/
theorem C7_failure_keeps_processing :
    ∀ (env : FaultEnv) (db : DB) (content filePath : String) (now : Nat) (e : String),
      (processERAFile env db content filePath now).2 = .failure e →
      e = "era claim detail insert failed" ∧
      (processERAFile env db content filePath now).1.eras =
        db.eras ++ [pendingEraRec db content filePath] ∧
      ∃ pre d post,
        (parseERAFile content).claims = pre ++ d :: post ∧
        env.detailCreateFails d = true ∧
        (∀ x ∈ pre, env.detailCreateFails x = false) ∧
        (processERAFile env db content filePath now).1 =
          (processClaimsLoop env db.next_id now
            { db with eras := db.eras ++ [pendingEraRec db content filePath],
                      next_id := db.next_id + 1 }
            pre).1 := by
  intro env db content filePath now e h
  have hcases : processERAFile env db content filePath now =
      (match (processClaimsLoop env db.next_id now
          { db with eras := db.eras ++ [pendingEraRec db content filePath],
                    next_id := db.next_id + 1 } (parseERAFile content).claims).2 with
       | some e0 => ((processClaimsLoop env db.next_id now
            { db with eras := db.eras ++ [pendingEraRec db content filePath],
                      next_id := db.next_id + 1 } (parseERAFile content).claims).1,
            .failure e0)
       | none => ({ (processClaimsLoop env db.next_id now
            { db with eras := db.eras ++ [pendingEraRec db content filePath],
                      next_id := db.next_id + 1 } (parseERAFile content).claims).1 with
              eras := ((processClaimsLoop env db.next_id now
                { db with eras := db.eras ++ [pendingEraRec db content filePath],
                          next_id := db.next_id + 1 } (parseERAFile content).claims).1.eras.map
                  (fun er => if er.id == db.next_id then
                    { er with processing_status := "POSTED" } else er)) },
            .success db.next_id)) := rfl
  rcases hr2 : (processClaimsLoop env db.next_id now
      { db with eras := db.eras ++ [pendingEraRec db content filePath],
                next_id := db.next_id + 1 } (parseERAFile content).claims).2 with _ | msg
  · have h2 : (processERAFile env db content filePath now).2 = .success db.next_id := by
      rw [hcases, hr2]
    exact absurd (h2.symm.trans h) (by simp)
  · have h1 : (processERAFile env db content filePath now).1 =
        (processClaimsLoop env db.next_id now
          { db with eras := db.eras ++ [pendingEraRec db content filePath],
                    next_id := db.next_id + 1 } (parseERAFile content).claims).1 := by
      rw [hcases, hr2]
    have h2 : (processERAFile env db content filePath now).2 = .failure msg := by
      rw [hcases, hr2]
    have hem : msg = e := by
      have h3 := h2.symm.trans h
      exact (ERAResult.failure.injEq msg e).mp h3
    obtain ⟨hmsg, pre, d, post, hds, hd, hpre, hdb⟩ :=
      processClaimsLoop_failure env db.next_id now (parseERAFile content).claims _ msg hr2
    subst hem
    refine ⟨hmsg, ?_, pre, d, post, hds, hd, hpre, ?_⟩
    · rw [h1, processClaimsLoop_eras]
    · rw [h1, hdb]

/-- C7 counterexample to the claim as stated: the two-claim remittance
whose second detail insert fails yields a failed run, yet the stored
remittance row is PROCESSING (not ERROR) and one claim-detail row from
the file remains persisted. -/
theorem C7_counterexample :
    (processERAFile failOnC2 emptyDB twoClaimContent "era1.txt" 0).2 =
      .failure "era claim detail insert failed" ∧
    failedRunDB.eras.map (fun er => er.processing_status) = ["PROCESSING"] ∧
    "PROCESSING" ≠ "ERROR" ∧
    failedRunDB.era_claim_details.length = 1 := by
  refine ⟨?_, ?_, by decide, ?_⟩
  · with_unfolding_all rfl
  · with_unfolding_all rfl
  · with_unfolding_all rfl

/-- C7 witness: the amended statement applied to the failing two-claim
run. -/
theorem C7_failure_keeps_processing_witness :
    (processERAFile failOnC2 emptyDB twoClaimContent "era1.txt" 0).1.eras =
      emptyDB.eras ++ [pendingEraRec emptyDB twoClaimContent "era1.txt"] :=
  (C7_failure_keeps_processing failOnC2 emptyDB twoClaimContent "era1.txt" 0
    "era claim detail insert failed" (by with_unfolding_all rfl)).2.1

/-- C6: a stored posting with method ERA and no human poster is
rejected with STATE_CONFLICT by both update and delete (the failing
route returns no mutated store, so the posting and its claim's
aggregates are untouched); a posting with a (nonzero) human poster id
or a non-ERA method passes the guard — delete removes it and update
with a valid body overwrites it, each followed by the totals
recomputation. -/
theorem C6_era_system_postings_immutable :
    (∀ (db : DB) (pid : Nat) (v : PaymentInput) (p : PaymentPosting),
      db.payment_postings.find? (fun q => q.id == pid) = some p →
      p.payment_method = "ERA" → p.posted_by = none →
      updatePayment db pid v =
        .error (.stateConflict "Cannot edit auto-posted ERA payments") ∧
      deletePayment db pid =
        .error (.stateConflict "Cannot delete auto-posted ERA payments")) ∧
    (∀ (db : DB) (pid : Nat) (p : PaymentPosting),
      db.payment_postings.find? (fun q => q.id == pid) = some p →
      (p.payment_method ≠ "ERA" ∨ ∃ uid, p.posted_by = some uid ∧ uid ≠ 0) →
      deletePayment db pid =
        .ok (updateClaimTotals
          { db with payment_postings :=
              db.payment_postings.filter (fun q => !(q.id == pid)) }
          p.claim_id) ∧
      (∀ v : PaymentInput, validPayment v = true →
        updatePayment db pid v =
          .ok (updateClaimTotals
            { db with payment_postings := db.payment_postings.map (fun q =>
                if q.id == pid then
                  { q with claim_id := v.claim_id, payment_type := v.payment_type,
                           payment_method := v.payment_method,
                           payment_amount := v.payment_amount }
                else q) }
            v.claim_id))) := by
  constructor
  · intro db pid v p hfind hm hpb
    constructor
    · simp [updatePayment, hfind, hm, hpb, jsTruthyId]
    · simp [deletePayment, hfind, hm, hpb, jsTruthyId]
  · intro db pid p hfind hmut
    have hguard : (p.payment_method == "ERA" && !(jsTruthyId p.posted_by)) = false := by
      rcases hmut with hm | ⟨uid, hpb, huid⟩
      · simp [hm]
      · simp [hpb, jsTruthyId, huid]
    constructor
    · simp [deletePayment, hfind, hguard]
    · intro v hv
      simp [updatePayment, hfind, hguard, hv]

/-- C6 witness: the CHECK posting of `moveDB` (human poster 5) is
mutable — delete succeeds; an ERA posting with no poster in the store
after `exDB` auto-posting is immutable — update and delete are
rejected. -/
theorem C6_era_system_postings_witness :
    deletePayment moveDB 10 =
      .ok (updateClaimTotals
        { moveDB with payment_postings :=
            moveDB.payment_postings.filter (fun q => !(q.id == 10)) }
        movePosting.claim_id) ∧
    updatePayment (processERAClaim noFault exDB 42 exDetailPaid 0).1 11 moveInput =
      .error (.stateConflict "Cannot edit auto-posted ERA payments") ∧
    deletePayment (processERAClaim noFault exDB 42 exDetailPaid 0).1 11 =
      .error (.stateConflict "Cannot delete auto-posted ERA payments") := by
  refine ⟨(C6_era_system_postings_immutable.2 moveDB 10 movePosting (by decide)
      (Or.inr ⟨5, rfl, by decide⟩)).1, ?_⟩
  have h := C6_era_system_postings_immutable.1
    (processERAClaim noFault exDB 42 exDetailPaid 0).1 11 moveInput
    { id := 11, claim_id := 1, era_id := some 42, payment_type := "INSURANCE",
      payment_method := "ERA", payment_amount := 300, posted_by := none }
    (by with_unfolding_all rfl) rfl rfl
  exact h

/-- C5: submit fails with STATE_CONFLICT unless the claim is DRAFT or
READY; with the guards and validation passed it delegates to the
gateway, and the claim is written as SUBMITTED with a submission
timestamp and the gateway's tracking id exactly when the gateway call
succeeds — on gateway failure the store is returned unchanged with the
gateway's error. -/
theorem C5_submit_requires_draft_or_ready :
    ∀ (db : DB) (claimId userId : Nat) (gw : GatewayResponse) (now : Nat) (claim : Claim),
      db.claims.find? (fun c => c.id == claimId) = some claim →
      (claim.claim_status ≠ "DRAFT" → claim.claim_status ≠ "READY" →
        submitClaim db claimId userId gw now = (db, .stateConflict)) ∧
      ((claim.claim_status = "DRAFT" ∨ claim.claim_status = "READY") →
        validateClaimForSubmission db claimId = [] →
        (gw.success = true →
          submitClaim db claimId userId gw now =
            ({ db with claims := db.claims.map (fun c =>
                if c.id == claimId then
                  { c with claim_status := "SUBMITTED", submission_date := some now,
                           clearinghouse_id := gw.clearinghouse_id,
                           clearinghouse_status := gw.status,
                           updated_by := some userId }
                else c) },
              .submitted gw.clearinghouse_id)) ∧
        (gw.success = false →
          submitClaim db claimId userId gw now =
            (db, .gatewayFailed (jsStr gw.errMsg)))) := by
  intro db claimId userId gw now claim hfind
  constructor
  · intro h1 h2
    simp [submitClaim, hfind, h1, h2]
  · intro hstat hvalid
    have hguard : (claim.claim_status == "DRAFT" || claim.claim_status == "READY") = true := by
      rcases hstat with h | h <;> simp [h]
    constructor
    · intro hgw
      simp [submitClaim, hfind, hguard, hvalid, hgw]
    · intro hgw
      simp [submitClaim, hfind, hguard, hvalid, hgw]

/-- C5 witness: submitting the DRAFT claim of `exDB` — the gateway
failure leaves the store unchanged and reports the error; the gateway
success writes SUBMITTED with the timestamp and tracking id. -/
theorem C5_submit_witness :
    submitClaim exDB 1 9 gwFail 7 = (exDB, .gatewayFailed (jsStr gwFail.errMsg)) ∧
    submitClaim exDB 1 9 gwOk 7 =
      ({ exDB with claims := exDB.claims.map (fun c =>
          if c.id == 1 then
            { c with claim_status := "SUBMITTED", submission_date := some 7,
                     clearinghouse_id := gwOk.clearinghouse_id,
                     clearinghouse_status := gwOk.status,
                     updated_by := some 9 }
          else c) },
        .submitted gwOk.clearinghouse_id) :=
  ⟨((C5_submit_requires_draft_or_ready exDB 1 9 gwFail 7 exClaim1 (by decide)).2
      (Or.inl rfl) (by with_unfolding_all rfl)).2 rfl,
   ((C5_submit_requires_draft_or_ready exDB 1 9 gwOk 7 exClaim1 (by decide)).2
      (Or.inl rfl) (by with_unfolding_all rfl)).1 rfl⟩

/-- C4 counterexample to the claim as stated: a create whose only line
item has charge amount 0 (not positive) is accepted, not rejected with
VALIDATION — the Joi schema only requires `min(0)` — and the claim is
stored as DRAFT with total_charges 0. -/
theorem C4_counterexample :
    validClaimInput zeroChargeInput = true ∧
    zeroChargeItem.charge_amount = some 0 ∧
    ¬ ((0 : Rat) < 0) ∧
    (createClaim emptyDB 7 "CLM9" zeroChargeInput).isOk = true ∧
    ((createClaim emptyDB 7 "CLM9" zeroChargeInput).toOption.map
        (fun x => x.1.claims.map (fun c => (c.claim_status, c.total_charges)))) =
      some [("DRAFT", (0 : Rat))] := by
  refine ⟨by with_unfolding_all rfl, rfl, by norm_num, by with_unfolding_all rfl,
    by with_unfolding_all rfl⟩

/-- C4 amended: create and update require at least one line item, each
with a service date and a non-negative (zero is allowed) charge
amount, rejecting the body with VALIDATION otherwise; the stored
total_charges is computed as the sum of the submitted line items'
charge amounts — the schema has no client total to trust — and a newly
created claim has status DRAFT. -/
theorem C4_create_totals_draft :
    (∀ v : ClaimInput, validClaimInput v = true →
      v.line_items ≠ [] ∧
      ∀ li ∈ v.line_items, li.service_date.isSome = true ∧
        ∃ a : Rat, li.charge_amount = some a ∧ 0 ≤ a) ∧
    (∀ (v : ClaimInput), validClaimInput v = false →
      ∀ (db : DB) (userId : Nat) (cn : String),
        createClaim db userId cn v = .error (.validation "invalid claim")) ∧
    (∀ (db : DB) (userId : Nat) (cn : String) (v : ClaimInput) (db1 : DB) (cid : Nat),
      createClaim db userId cn v = .ok (db1, cid) →
      validClaimInput v = true ∧
      ∃ c : Claim, db1.claims = db.claims ++ [c] ∧ c.claim_number = cn ∧
        c.claim_status = "DRAFT" ∧ c.total_charges = computedTotalCharges v) ∧
    (∀ (db : DB) (userId cid : Nat) (v : ClaimInput) (db1 : DB),
      updateClaim db userId cid v = .ok db1 →
      validClaimInput v = true ∧
      ∀ c ∈ db1.claims, c.id = cid → c.total_charges = computedTotalCharges v) ∧
    (∀ v : ClaimInput, computedTotalCharges v =
      (v.line_items.map (fun li => li.charge_amount.getD 0)).sum) := by
  refine ⟨?_, ?_, ?_, ?_, fun v => rfl⟩
  · intro v hv
    simp only [validClaimInput, Bool.and_eq_true] at hv
    obtain ⟨⟨_, hlen⟩, hall⟩ := hv
    constructor
    · intro hnil
      rw [hnil] at hlen
      exact absurd hlen (by decide)
    · intro li hli
      have h := List.all_eq_true.mp hall li hli
      simp only [validLineItem, Bool.and_eq_true] at h
      obtain ⟨⟨⟨_, hsd⟩, _⟩, hca⟩ := h
      refine ⟨hsd, ?_⟩
      cases hc : li.charge_amount with
      | none => rw [hc] at hca; exact absurd hca (by decide)
      | some a =>
        rw [hc] at hca
        exact ⟨a, rfl, by simpa using hca⟩
  · intro v hv db userId cn
    simp [createClaim, hv]
  · intro db userId cn v db1 cid h
    by_cases hv : validClaimInput v = true
    · rw [createClaim, if_neg (by simp [hv])] at h
      have h2 := Except.ok.inj h
      have h3 := congrArg Prod.fst h2
      dsimp only at h3
      refine ⟨hv,
        { id := db.next_id, claim_number := cn, patient_id := v.patient_id.getD 0,
          primary_insurance_id := v.primary_insurance_id.getD 0, claim_status := "DRAFT",
          total_charges := computedTotalCharges v, total_paid := some 0,
          patient_responsibility := some 0,
          primary_diagnosis_code := v.primary_diagnosis_code,
          place_of_service := v.place_of_service,
          billing_provider_npi := v.billing_provider_npi,
          rendering_provider_npi := v.rendering_provider_npi,
          updated_by := some userId }, ?_, rfl, rfl, rfl⟩
      rw [← h3]
    · rw [createClaim, if_pos hv] at h
      exact absurd h (by simp)
  · intro db userId cid v db1 h
    rw [updateClaim] at h
    rcases hfind : db.claims.find? (fun c => c.id == cid) with _ | ex
    · rw [hfind] at h
      exact absurd h (by simp)
    · rw [hfind] at h
      dsimp only at h
      by_cases hst : (ex.claim_status == "DRAFT" || ex.claim_status == "READY") = true
      · rw [if_neg (not_not_intro hst)] at h
        by_cases hv : validClaimInput v = true
        · rw [if_neg (not_not_intro hv)] at h
          have hdb1 := Except.ok.inj h
          refine ⟨hv, ?_⟩
          intro c hc hid
          rw [← hdb1] at hc
          dsimp only at hc
          obtain ⟨a, ha, rfl⟩ := List.mem_map.mp hc
          by_cases hai : a.id == cid
          · simp [hai]
          · rw [if_neg hai] at hid ⊢
            exact absurd (by simp [hid]) hai
        · rw [if_pos hv] at h
          exact absurd h (by simp)
      · rw [if_pos hst] at h
        exact absurd h (by simp)

/-- C4 witness: the amended statement applied to the accepted
zero-charge body — it has a line item, and the computed total is the
line sum. -/
theorem C4_create_totals_witness :
    zeroChargeInput.line_items ≠ [] ∧
    computedTotalCharges zeroChargeInput =
      (zeroChargeInput.line_items.map (fun li => li.charge_amount.getD 0)).sum :=
  ⟨(C4_create_totals_draft.1 zeroChargeInput (by with_unfolding_all rfl)).1,
   C4_create_totals_draft.2.2.2.2 zeroChargeInput⟩

section Invariant

lemma find?_if_update {α} (p : α → Bool) (f : α → α) (hf : ∀ a, p (f a) = p a)
    (l : List α) :
    (l.map (fun a => if p a then f a else a)).find? p =
      (l.find? p).map (fun a => if p a then f a else a) := by
  induction l with
  | nil => rfl
  | cons a l ih =>
    by_cases h : p a = true
    · rw [List.map_cons,
        List.find?_cons_of_pos _ (by rw [if_pos h, hf]; exact h),
        List.find?_cons_of_pos _ h]
      simp [h]
    · have h' : p a = false := by simpa using h
      rw [List.map_cons,
        List.find?_cons_of_neg _ (by rw [if_neg (by simp [h']), h']; simp),
        List.find?_cons_of_neg _ (by simp [h']), ih]

lemma find?_if_update_other {α} (p q : α → Bool) (f : α → α)
    (hqf : ∀ a, q (f a) = q a) (hdisj : ∀ a, q a = true → p a = false)
    (l : List α) :
    (l.map (fun a => if p a then f a else a)).find? q = l.find? q := by
  induction l with
  | nil => rfl
  | cons a l ih =>
    by_cases h : q a = true
    · have hp : p a = false := hdisj a h
      rw [List.map_cons, if_neg (by simp [hp]), List.find?_cons_of_pos _ h,
        List.find?_cons_of_pos _ h]
    · have h' : q a = false := by simpa using h
      have hqm : q (if p a then f a else a) = false := by
        by_cases hpa : p a = true
        · rw [if_pos hpa, hqf, h']
        · rw [if_neg hpa, h']
      rw [List.map_cons, List.find?_cons_of_neg _ (by simp [hqm]),
        List.find?_cons_of_neg _ (by simp [h']), ih]

lemma updateClaimTotals_postings (db : DB) (cid : Nat) :
    (updateClaimTotals db cid).payment_postings = db.payment_postings := by
  simp only [updateClaimTotals]
  split <;> rfl

lemma paidSum_congr {db db' : DB} (h : db'.payment_postings = db.payment_postings)
    (cid : Nat) : paidSum db' cid = paidSum db cid := by
  simp [paidSum, h]

lemma adjSum_congr {db db' : DB} (h : db'.payment_postings = db.payment_postings)
    (cid : Nat) : adjSum db' cid = adjSum db cid := by
  simp [adjSum, h]

lemma invariantAt_updateClaimTotals (db : DB) (cid : Nat) :
    invariantAt (updateClaimTotals db cid) cid := by
  intro c hc
  rcases hfind : db.claims.find? (fun x => x.id == cid) with _ | cl
  · have hid : updateClaimTotals db cid = db := by
      simp [updateClaimTotals, hfind]
    rw [hid, hfind] at hc
    exact absurd hc (by simp)
  · have hup : updateClaimTotals db cid =
        { db with claims := db.claims.map (fun x =>
            if x.id == cid then
              { x with total_paid := some (paidSum db cid),
                       patient_responsibility :=
                         some (max 0 (cl.total_charges - paidSum db cid - adjSum db cid)) }
            else x) } := by
      simp only [updateClaimTotals, hfind]
    have hpost : (updateClaimTotals db cid).payment_postings = db.payment_postings :=
      updateClaimTotals_postings db cid
    rw [hup] at hc
    dsimp only at hc
    rw [find?_if_update (fun x : Claim => x.id == cid)
      (fun x => { x with total_paid := some (paidSum db cid),
                         patient_responsibility :=
                           some (max 0 (cl.total_charges - paidSum db cid - adjSum db cid)) })
      (fun a => rfl), hfind] at hc
    have hcl : (cl.id == cid) = true := (List.find?_eq_some.mp hfind).1
    rw [Option.map_some', if_pos hcl] at hc
    have hceq := (Option.some.inj hc).symm
    subst hceq
    constructor
    · rw [paidSum_congr hpost]
    · rw [paidSum_congr hpost, adjSum_congr hpost]

lemma invariantAt_transfer {db db' : DB} {A : Nat}
    (hfind : db'.claims.find? (fun c => c.id == A) =
      db.claims.find? (fun c => c.id == A))
    (hpaid : paidSum db' A = paidSum db A) (hadj : adjSum db' A = adjSum db A) :
    invariantAt db A → invariantAt db' A := by
  intro h c hc
  rw [hfind] at hc
  obtain ⟨h1, h2⟩ := h c hc
  exact ⟨by rw [hpaid]; exact h1, by rw [hpaid, hadj]; exact h2⟩

lemma invariantAt_updateClaimTotals_other {db : DB} {A B : Nat} (hAB : A ≠ B) :
    invariantAt db A → invariantAt (updateClaimTotals db B) A := by
  refine invariantAt_transfer ?_ (paidSum_congr (updateClaimTotals_postings db B) A)
    (adjSum_congr (updateClaimTotals_postings db B) A)
  rcases hfind : db.claims.find? (fun x => x.id == B) with _ | cl
  · simp [updateClaimTotals, hfind]
  · have hup : updateClaimTotals db B =
        { db with claims := db.claims.map (fun x =>
            if x.id == B then
              { x with total_paid := some (paidSum db B),
                       patient_responsibility :=
                         some (max 0 (cl.total_charges - paidSum db B - adjSum db B)) }
            else x) } := by
      simp only [updateClaimTotals, hfind]
    rw [hup]
    dsimp only
    exact find?_if_update_other (fun x : Claim => x.id == B) (fun x : Claim => x.id == A)
      (fun x => { x with total_paid := some (paidSum db B),
                         patient_responsibility :=
                           some (max 0 (cl.total_charges - paidSum db B - adjSum db B)) })
      (fun a => rfl)
      (fun a ha => by
        have h2 : a.id = A := by simpa using ha
        simp only [h2]
        simpa using hAB)
      db.claims

lemma paidSum_append_other {db db' : DB} {p : PaymentPosting} {A : Nat}
    (hpost : db'.payment_postings = db.payment_postings ++ [p])
    (h : (p.claim_id == A) = false) : paidSum db' A = paidSum db A := by
  simp [paidSum, hpost, List.filter_append, h]

lemma adjSum_append_other {db db' : DB} {p : PaymentPosting} {A : Nat}
    (hpost : db'.payment_postings = db.payment_postings ++ [p])
    (h : (p.claim_id == A) = false) : adjSum db' A = adjSum db A := by
  simp [adjSum, hpost, List.filter_append, h]

lemma postPayment_ok_eq {db : DB} {u : Nat} {v : PaymentInput} {db1 : DB} {pid : Nat}
    (h : postPayment db u v = .ok (db1, pid)) :
    db1 = updateClaimTotals
      { db with
          payment_postings := db.payment_postings ++
            [{ id := db.next_id, claim_id := v.claim_id, era_id := none,
               payment_type := v.payment_type, payment_method := v.payment_method,
               payment_amount := v.payment_amount, posted_by := some u }]
          next_id := db.next_id + 1 } v.claim_id ∧
    (db.claims.find? (fun c => c.id == v.claim_id)).isSome = true := by
  rw [postPayment] at h
  by_cases hv : validPayment v = true
  · rw [if_neg (not_not_intro hv)] at h
    rcases hfind : db.claims.find? (fun c => c.id == v.claim_id) with _ | cl
    · rw [hfind] at h
      exact absurd h (by simp)
    · rw [hfind] at h
      dsimp only at h
      have h2 := congrArg Prod.fst (Except.ok.inj h)
      dsimp only at h2
      exact ⟨h2.symm, by rw [hfind]; rfl⟩
  · rw [if_pos hv] at h
    exact absurd h (by simp)

lemma postPayment_invariant {db : DB} {u : Nat} {v : PaymentInput} {db1 : DB}
    {pid : Nat} (h : postPayment db u v = .ok (db1, pid)) :
    invariantAt db1 v.claim_id := by
  rw [(postPayment_ok_eq h).1]
  exact invariantAt_updateClaimTotals _ _

lemma postPayment_preserves {db : DB} {u : Nat} {v : PaymentInput} {db1 : DB}
    {pid A : Nat} (h : postPayment db u v = .ok (db1, pid)) :
    invariantAt db A → invariantAt db1 A := by
  intro hinv
  by_cases hA : v.claim_id = A
  · subst hA
    exact postPayment_invariant h
  · rw [(postPayment_ok_eq h).1]
    refine invariantAt_updateClaimTotals_other (fun hEq => hA hEq.symm) ?_
    refine invariantAt_transfer ?_ ?_ ?_ hinv
    · rfl
    · exact paidSum_append_other (by rfl) (by simp [hA])
    · exact adjSum_append_other (by rfl) (by simp [hA])

lemma bulkPostPayments_preserves {u A : Nat} (vs : List PaymentInput) :
    ∀ db : DB, invariantAt db A → invariantAt (bulkPostPayments db u vs).1 A := by
  induction vs with
  | nil => intro db h; exact h
  | cons v vs ih =>
    intro db h
    rcases hp : postPayment db u v with e | r1
    · rw [bulkPostPayments, hp]
      exact ih db h
    · rcases r1 with ⟨db1, pid⟩
      rw [bulkPostPayments, hp]
      exact ih db1 (postPayment_preserves hp h)

end Invariant

/-- C1 counterexample to the claim as stated: updating the CHECK
posting of 40 so that it moves from claim 1 to claim 2 commits, but
claim 1 — a claim that just had a posting mutation on it — is left
with its stale aggregates: its stored total_paid is still 40 while its
posting sum is now 0, so the invariant fails at claim 1. -/
theorem C1_counterexample :
    (updatePayment moveDB 10 moveInput).isOk = true ∧
    movedDB.claims.find? (fun c => c.id == 1) = some moveClaim1 ∧
    moveClaim1.total_paid = some 40 ∧
    paidSum movedDB 1 = 0 ∧
    ¬ invariantAt movedDB 1 := by
  refine ⟨by with_unfolding_all rfl, by with_unfolding_all rfl, rfl,
    by with_unfolding_all rfl, ?_⟩
  intro h
  have h2 := (h moveClaim1 (by with_unfolding_all rfl)).1
  rw [show paidSum movedDB 1 = 0 from by with_unfolding_all rfl] at h2
  have h3 : (40 : Rat) = 0 := Option.some.inj h2
  norm_num at h3

/-- C1 amended: after every payment-posting mutation the invariant
`total_paid = Σ INSURANCE+PATIENT postings` and `patient_responsibility
= max(0, total_charges − total_paid − total_adjustments)` holds for the
claim the posting references after the mutation — the target claim of a
manual or bulk post, the body's claim for an update, and the deleted
posting's claim for a delete (and for every successfully posted item of
a bulk run).  An update that moves a posting to another claim does not
recompute the previously referenced claim (see the counterexample). -/
theorem C1_totals_invariant :
    (∀ (db : DB) (u : Nat) (v : PaymentInput) (db1 : DB) (pid : Nat),
      postPayment db u v = .ok (db1, pid) → invariantAt db1 v.claim_id) ∧
    (∀ (db : DB) (pid : Nat) (v : PaymentInput) (db1 : DB),
      updatePayment db pid v = .ok db1 → invariantAt db1 v.claim_id) ∧
    (∀ (db : DB) (pid : Nat) (p : PaymentPosting) (db1 : DB),
      db.payment_postings.find? (fun q => q.id == pid) = some p →
      deletePayment db pid = .ok db1 → invariantAt db1 p.claim_id) ∧
    (∀ (db : DB) (u : Nat) (vs : List PaymentInput) (r : BulkItemResult),
      r ∈ (bulkPostPayments db u vs).2 → r.succeeded = true →
      invariantAt (bulkPostPayments db u vs).1 r.claim_id) := by
  refine ⟨fun db u v db1 pid h => postPayment_invariant h, ?_, ?_, ?_⟩
  · intro db pid v db1 h
    rw [updatePayment] at h
    rcases hfind : db.payment_postings.find? (fun q => q.id == pid) with _ | ex
    · rw [hfind] at h
      exact absurd h (by simp)
    · rw [hfind] at h
      dsimp only at h
      by_cases hguard : (ex.payment_method == "ERA" && !(jsTruthyId ex.posted_by)) = true
      · rw [if_pos hguard] at h
        exact absurd h (by simp)
      · rw [if_neg (by simpa using hguard)] at h
        by_cases hv : validPayment v = true
        · rw [if_neg (not_not_intro hv)] at h
          have h2 := Except.ok.inj h
          rw [← h2]
          exact invariantAt_updateClaimTotals _ _
        · rw [if_pos hv] at h
          exact absurd h (by simp)
  · intro db pid p db1 hfind h
    rw [deletePayment, hfind] at h
    dsimp only at h
    by_cases hguard : (p.payment_method == "ERA" && !(jsTruthyId p.posted_by)) = true
    · rw [if_pos hguard] at h
      exact absurd h (by simp)
    · rw [if_neg (by simpa using hguard)] at h
      have h2 := Except.ok.inj h
      rw [← h2]
      exact invariantAt_updateClaimTotals _ _
  · intro db u vs
    induction vs generalizing db with
    | nil => intro r hr; exact absurd hr (by simp [bulkPostPayments])
    | cons v vs ih =>
      intro r hr hsucc
      rcases hp : postPayment db u v with e | r1
      · rw [bulkPostPayments, hp] at hr ⊢
        dsimp only at hr
        rcases List.mem_cons.mp hr with rfl | hr2
        · exact absurd hsucc (by simp)
        · exact ih db r hr2 hsucc
      · rcases r1 with ⟨db1, pid⟩
        rw [bulkPostPayments, hp] at hr ⊢
        dsimp only at hr
        rcases List.mem_cons.mp hr with rfl | hr2
        · exact bulkPostPayments_preserves vs db1 (postPayment_invariant hp)
        · exact ih db1 r hr2 hsucc

/-- C1 witness: the amended statement at a concrete manual posting of
10 (type PATIENT, method CASH) on claim 1 of `moveDB`. -/
theorem C1_totals_invariant_witness :
    invariantAt (updateClaimTotals
      { moveDB with
          payment_postings := moveDB.payment_postings ++
            [{ id := 11, claim_id := 1, era_id := none, payment_type := "PATIENT",
               payment_method := "CASH", payment_amount := 10, posted_by := some 5 }]
          next_id := 12 } 1) 1 :=
  C1_totals_invariant.1 moveDB 5 ⟨1, "PATIENT", "CASH", 10⟩ _ 11
    (by with_unfolding_all rfl)

end RCM
